import Mathlib

/-!
# Trunki: gesture detection and assessment session progression

A shallow embedding of

* `src/src/pages/Students/GestureQuestionPage.jsx` (finger helpers, the two-finger
  classifier, the MediaPipe callback `onResults`, `startTest`),
* `src/src/pages/Students/assesmentPage.jsx` and `src/src/components/assesmentPage.jsx`
  (the two session implementations: `fetchQuestions`, `completeQuestion`, `completeGame`,
  `generateDemoQuestions`),

followed by theorems about them.

Conventions of the embedding.

* Landmark coordinates are rationals: every finite JavaScript number is one, and the
  classifier only compares them.
* `Date.now()` is an integer number of milliseconds; one callback invocation reads one
  clock value.
* JavaScript `undefined` is `none`; a `TypeError` raised by reading a property of
  `undefined` is `none` in an `Option` result, or `Except.error` carrying the state the
  refs were left in.
* React state variables and refs are fields of an explicit state record; a state setter
  is a record update. A function created during a render reads the values its render
  had: `onResults` takes the `status` of its render as an argument, and the callback that
  MediaPipe calls is the one of the first render (`registeredStatus`).
* An asynchronous handler is embedded as one step, the outcome of each request it awaits
  being an argument; the requests it sends are listed in its result.
-/

namespace GestureQuestionPage

/-! ## Data model -/

/-- One hand landmark as delivered by MediaPipe (normalised image coordinates). -/
structure Landmark where
  x : ℚ
  y : ℚ
  z : ℚ
deriving DecidableEq

/-- A hand is the array of landmarks of one detected hand. -/
abbrev Hand := List Landmark

/-! ## Finger helpers (lines 20-26)

The arguments are array reads `hand[i]`, which are `undefined` past the end of the
array; reading `.y` of `undefined` throws, which is the result `none`. -/

/-- Source: `tip.y < pip.y && pip.y < mcp.y`. The conjunction short-circuits, so `mcp` is
only read when the first comparison is true. -/
def isFingerExtended (tip pip mcp : Option Landmark) : Option Bool :=
  match tip, pip with
  | some t, some p =>
    if t.y < p.y then
      match mcp with
      | some m => some (decide (p.y < m.y))
      | none => none
    else some false
  | _, _ => none

/-- Source: `tip.y > pip.y`. -/
def isFingerFolded (tip pip : Option Landmark) : Option Bool :=
  match tip, pip with
  | some t, some p => some (decide (t.y > p.y))
  | _, _ => none

/-- Source: `isTwoGesture` (lines 29-38). The argument is `none` for a `null` or
`undefined` hand. The four finger tests are evaluated in source order, each before the
final conjunction. -/
def isTwoGesture (hand : Option Hand) : Option Bool :=
  match hand with
  | none => some false
  | some h =>
    if h.length ≠ 21 then some false
    else
      match isFingerExtended h[8]? h[6]? h[5]? with
      | none => none
      | some indexUp =>
        match isFingerExtended h[12]? h[10]? h[9]? with
        | none => none
        | some middleUp =>
          match isFingerFolded h[16]? h[14]? with
          | none => none
          | some ringDown =>
            match isFingerFolded h[20]? h[18]? with
            | none => none
            | some pinkyDown => some (indexUp && middleUp && ringDown && pinkyDown)

/-! ## Component state (lines 41-57) -/

/-- The `status` state variable. -/
inductive Status
  | waiting
  | detecting
  | success
deriving DecidableEq

/-- The object held by `metricsRef`. `startTime` is `null` until `startTest` runs. -/
structure MetricsRef where
  startTime : Option Int
  lastSeen : Int
  attentionLoss : Nat
  lowConfidence : Nat
deriving DecidableEq

/-- The `metrics` object built on success (lines 100-105) and passed to `saveMetrics`.
`timeTaken` is kept as the millisecond difference `end - startTime`; the source divides
it by 1000 and prints two decimals. -/
structure GestureMetrics where
  timeTaken : Int
  isCorrect : Bool
  attentionLost : Nat
  sluggishness : Nat
deriving DecidableEq

/-- One entry of `results.multiHandedness`. -/
structure Handedness where
  score : ℚ
deriving DecidableEq

/-- The argument MediaPipe passes to the callback (the image is only drawn). -/
structure Results where
  multiHandLandmarks : Option (List Hand)
  multiHandedness : Option (List Handedness)
deriving DecidableEq

/-- The state of the component: the `status` state variable (what `setStatus` last wrote
and the page shows), the refs `stableCounter` and `metricsRef`, the list of `saveMetrics`
calls made so far (oldest first) and whether `cameraRef.current.stop()` has been
called. -/
structure State where
  status : Status
  stableCounter : Nat
  metricsRef : MetricsRef
  saved : List GestureMetrics
  cameraStopped : Bool
deriving DecidableEq

/-- Source: `results.multiHandedness?.[0]?.score || 1` (line 82); a score of `0` is
falsy and is replaced by `1`. -/
def confidence (results : Results) : ℚ :=
  match results.multiHandedness with
  | some (h :: _) => if h.score = 0 then 1 else h.score
  | _ => 1

/-- Source: `onResults` (lines 60-121). Every render creates its own `onResults`;
`status` is the constant `status` of the render that created this one, which is what the
tests of lines 95 and 115 read, while `setStatus` writes the state variable `s.status`.
`canvas` tells whether `canvasRef.current` is set and `now` is the value of `Date.now()`.
The result is `Except.ok` when the callback returns and `Except.error` when it throws a
`TypeError`; either way it carries the state left behind. Drawing is omitted. -/
def onResults (status : Status) (canvas : Bool) (now : Int) (results : Results)
    (s : State) : Except State State :=
  if canvas = false then Except.ok s
  else
    match results.multiHandLandmarks with
    | some (landmarks :: _) =>
      let m1 : MetricsRef := { s.metricsRef with lastSeen := now }
      let m2 : MetricsRef :=
        if confidence results < 0.6 then { m1 with lowConfidence := m1.lowConfidence + 1 }
        else m1
      let s1 : State := { s with metricsRef := m2 }
      -- debug overlay (lines 90-92): three array reads that throw on a short array
      match isFingerExtended landmarks[8]? landmarks[6]? landmarks[5]? with
      | none => Except.error s1
      | some _ =>
        match isFingerExtended landmarks[12]? landmarks[10]? landmarks[9]? with
        | none => Except.error s1
        | some _ =>
          match isFingerFolded landmarks[16]? landmarks[14]? with
          | none => Except.error s1
          | some _ =>
            -- gesture logic (lines 95-114)
            if status = Status.detecting then
              match isTwoGesture (some landmarks) with
              | none => Except.error s1
              | some true =>
                let s2 : State := { s1 with stableCounter := s1.stableCounter + 1 }
                if s2.stableCounter > 10 then
                  let metrics : GestureMetrics :=
                    { timeTaken := now - s2.metricsRef.startTime.getD 0
                      isCorrect := true
                      attentionLost := s2.metricsRef.attentionLoss
                      sluggishness := s2.metricsRef.lowConfidence }
                  Except.ok { s2 with
                    saved := s2.saved ++ [metrics]
                    status := Status.success
                    cameraStopped := true }
                else Except.ok s2
              | some false => Except.ok { s1 with stableCounter := 0 }
            else Except.ok { s1 with stableCounter := 0 }
    | _ =>
      if status = Status.detecting then
        if now - s.metricsRef.lastSeen > 600 then
          Except.ok { s with
            metricsRef := { s.metricsRef with
              attentionLoss := s.metricsRef.attentionLoss + 1
              lastSeen := now } }
        else Except.ok s
      else Except.ok s

/-- Source: `startTest` (lines 161-170), with `now` the value of `Date.now()`. It
resets the refs and writes the state variable; it registers no callback. -/
def startTest (now : Int) (s : State) : State :=
  { s with
    metricsRef := { startTime := some now, lastSeen := now, attentionLoss := 0,
                    lowConfidence := 0 }
    stableCounter := 0
    status := Status.detecting }

/-! ## Feeding a sequence of sensor ticks -/

/-- One sensor tick: the clock value and what MediaPipe delivered. -/
structure Tick where
  now : Int
  results : Results
deriving DecidableEq

/-- The state left behind by a callback invocation, returned or thrown. -/
def stateAfter : Except State State → State
  | Except.ok s => s
  | Except.error s => s

/-- The `status` inside the one `onResults` that MediaPipe calls. The effect of lines
124-159 has the dependency list `[]` (line 159): it runs once, after the first render, and
`hands.onResults(onResults)` (line 137) registers the callback of that render, created
while `status` was the initial `"waiting"` (line 55). The callbacks created by later
renders are never registered. -/
def registeredStatus : Status := Status.waiting

/-- The state after one tick is processed, with the canvas mounted, by an `onResults`
whose render had the given `status`. -/
def tickReading (status : Status) (s : State) (t : Tick) : State :=
  stateAfter (onResults status true t.now t.results s)

/-- One tick of the program: the registered callback processes it. -/
def tick (s : State) (t : Tick) : State :=
  tickReading registeredStatus s t

/-- The ticks of a list processed by the program one after the other, oldest first. -/
def runTicks (s : State) (ts : List Tick) : State :=
  ts.foldl tick s

/-- The ticks of a list processed one after the other when the callback called at each
tick is one whose render had the status `reads s`, `s` being the state at that tick.
The program is the case `reads s = registeredStatus`. -/
def runReading (reads : State → Status) (s : State) (ts : List Tick) : State :=
  ts.foldl (fun s t => tickReading (reads s) s t) s

/-- What can happen to the mounted component: a sensor tick, or a click on Start
Test. -/
inductive Event
  | sensorTick (t : Tick)
  | startClicked (now : Int)

/-- The state of the program after one event: a sensor tick is processed by the
registered callback, a click runs `startTest`. -/
def afterEvent (s : State) : Event → State
  | Event.sensorTick t => tick s t
  | Event.startClicked now => startTest now s

/-- The state of the program after the events of a list, oldest first. -/
def runEvents (s : State) (es : List Event) : State :=
  es.foldl afterEvent s

/-! ## Vocabulary of the claims about tick sequences -/

/-- The hand frame of a tick, if one was seen (`multiHandLandmarks` non-empty). -/
def handOf (t : Tick) : Option Hand :=
  match t.results.multiHandLandmarks with
  | some (h :: _) => some h
  | _ => none

/-- A tick on which no hand frame is seen. -/
def noHand (t : Tick) : Bool := (handOf t).isNone

/-- A positive frame: a hand is present and `isTwoGesture` is true on it. -/
def positive (t : Tick) : Bool :=
  match handOf t with
  | some h => isTwoGesture (some h) == some true
  | none => false

/-- Every hand frame of the tick has exactly 21 landmarks (the data model's
LandmarkFrame). -/
def wellFormed (t : Tick) : Bool :=
  match handOf t with
  | some h => h.length == 21
  | none => true

/-- A tick without a hand at time `now`. -/
def noHandTick (now : Int) : Tick :=
  { now := now, results := { multiHandLandmarks := none, multiHandedness := none } }

/-- A landmark at height `y`. -/
def lm (y : ℚ) : Landmark := { x := 0, y := y, z := 0 }

/-- A hand showing two fingers: index and middle tips above their joints, ring and pinky
tips below theirs. -/
def twoHand : Hand :=
  [lm 0, lm 0, lm 0, lm 0, lm 0, lm 3, lm 2, lm 0, lm 1, lm 3, lm 2, lm 0, lm 1, lm 0,
   lm 1, lm 0, lm 2, lm 0, lm 1, lm 0, lm 2]

/-- A flat hand: all 21 landmarks at the same height. -/
def flatHand : Hand := List.replicate 21 (lm 0)

/-- A tick at time `now` carrying hand `h` with handedness score 1. -/
def handTick (now : Int) (h : Hand) : Tick :=
  { now := now
    results := { multiHandLandmarks := some [h], multiHandedness := some [{ score := 1 }] } }

/-- The component state after the first render (lines 46-57), `now` being the value of
`Date.now()` at that moment. -/
def mounted (now : Int) : State :=
  { status := Status.waiting
    stableCounter := 0
    metricsRef := { startTime := none, lastSeen := now, attentionLoss := 0, lowConfidence := 0 }
    saved := []
    cameraStopped := false }

/-- Nine positive frames, one negative hand frame, ten positive frames, 33 ms apart. -/
def nineOneTen : List Tick :=
  (List.range 9).map (fun i => handTick (33 * (i + 1)) twoHand) ++
    [handTick 330 flatHand] ++
    (List.range 10).map (fun i => handTick (363 + 33 * i) twoHand)

/-- The first `k` ticks of an absence sampled every 33 ms: no hand at 33, 66, ... -/
def absence33 (k : Nat) : List Tick :=
  (List.range k).map (fun i => noHandTick (33 * (i + 1)))

/-- A tick at time `now` carrying hand `h` with the given handedness score. -/
def scoredTick (now : Int) (h : Hand) (score : ℚ) : Tick :=
  { now := now
    results :=
      { multiHandLandmarks := some [h], multiHandedness := some [{ score := score }] } }

/-- A malformed hand frame: 20 landmarks instead of 21. -/
def shortHand : Hand := List.replicate 20 (lm 0)

/-- Eleven positive frames, 33 ms apart. -/
def elevenPositive : List Tick :=
  (List.range 11).map (fun i => handTick (33 * (i + 1)) twoHand)

end GestureQuestionPage

/-! # The assessment session (both `assesmentPage.jsx` files) -/

namespace Assessment

/-- Source: `const TOTAL_LEVELS = 10;` (both files). -/
def TOTAL_LEVELS : Nat := 10

/-- Source: `const QUESTIONS_PER_LEVEL = 4;` (both files). -/
def QUESTIONS_PER_LEVEL : Nat := 4

/-- A JavaScript value stored in a result record. -/
inductive JsVal
  | null
  | num (n : Int)
  | str (s : String)
  | bool (b : Bool)
deriving DecidableEq

/-- A JavaScript object as its list of properties in insertion order. -/
abbrev JsObj := List (String × JsVal)

/-- Assignment of one property: an existing key keeps its place and takes the new
value, a new key is added at the end. -/
def setProp (o : JsObj) (k : String) (v : JsVal) : JsObj :=
  match o with
  | [] => [(k, v)]
  | (k0, v0) :: rest => if k0 = k then (k, v) :: rest else (k0, v0) :: setProp rest k v

/-- Object spread `{ ...o, ...ext }`: the properties of `ext` are assigned onto `o`
in order. -/
def spread (o ext : JsObj) : JsObj :=
  ext.foldl (fun acc kv => setProp acc kv.1 kv.2) o

/-- Property read `o.k` (`none` for `undefined`). -/
def getProp (o : JsObj) (k : String) : Option JsVal :=
  (o.find? (fun kv => kv.1 == k)).map (fun kv => kv.2)

/-- A question object, with the properties the two files read or generate. A property
the object does not have is the empty string or list, or `none`. -/
structure Question where
  type : String
  question : String := ""
  options : List Int := []
  correct_answer : Option Nat := none
  memory : String := ""
  answer : String := ""
  target_gesture : String := ""
  left_items : List String := []
  right_items : List String := []
  correct_matches : List (Nat × Nat) := []
  items_to_remember : List String := []
  all_items : List String := []
deriving DecidableEq

/-- The `state` variable of `AssessmentGame`. -/
inductive SessionState
  | welcome
  | playing
  | completed
deriving DecidableEq

/-- The state variables of `AssessmentGame` that the progression reads or writes.
`age` is `profile?.age` (`none` before a profile is set, and in the file without a
profile). `sessionId` is the state variable of `src/src/components/assesmentPage.jsx`; in
`src/src/pages/Students/assesmentPage.jsx`, where `sessionId` is a constant computed anew
by every render, the field keeps the constant of the first render and the handlers take
the constant of their own render as an argument. -/
structure Session where
  state : SessionState
  level : Nat
  qIndex : Nat
  questions : List Question
  loading : Bool
  results : List JsObj
  sessionId : String
  age : Option Nat
deriving DecidableEq

/-- How the request `POST /api/level/lvl/questions` ends: `ok` with a JSON body whose
`questions` array is given; `okNoQuestions` with an ok status and a JSON object that has
no `questions` property; `failed` with a network error, a non-ok status or a body that
is not JSON. -/
inductive FetchOutcome
  | ok (questions : List Question)
  | okNoQuestions
  | failed
deriving DecidableEq

/-- The code points that `String.prototype.trim` removes: the ECMAScript WhiteSpace and
LineTerminator characters. -/
def isJsWhiteSpace (c : Char) : Bool :=
  c.toNat = 0x09 || c.toNat = 0x0A || c.toNat = 0x0B || c.toNat = 0x0C || c.toNat = 0x0D ||
  c.toNat = 0x20 || c.toNat = 0xA0 || c.toNat = 0x1680 ||
  (0x2000 ≤ c.toNat && c.toNat ≤ 0x200A) ||
  c.toNat = 0x2028 || c.toNat = 0x2029 || c.toNat = 0x202F || c.toNat = 0x205F ||
  c.toNat = 0x3000 || c.toNat = 0xFEFF

/-- JavaScript `s.trim()`: `s` without its leading and trailing white space. -/
def jsTrim (s : String) : String :=
  String.mk ((s.toList.dropWhile isJsWhiteSpace).reverse.dropWhile isJsWhiteSpace).reverse

/-- A request sent to the backend: the question fetch for a level with the
`session_id` and `child_age` of its body, the record of one answered question, the final
analysis with its `session_id` and `results`. -/
inductive Effect
  | levelQuestions (lvl : Nat) (session_id : String) (child_age : Nat)
  | response (result : JsObj)
  | analysis (session_id : String) (results : List JsObj)
deriving DecidableEq

/-- What a question processor lets the child do. -/
inductive Action
  | submitOption (selected : Nat) (time_taken : Int)
  | submitText (input : String) (time_taken : Int)
  | detectGesture
deriving DecidableEq

end Assessment

/-! ## `src/src/pages/Students/assesmentPage.jsx` -/

namespace Pages

open Assessment

/-- Source: `generateDemoQuestions` (lines 308-337). -/
def generateDemoQuestions (level : Nat) : List Question :=
  [ { type := "mcq"
      question := toString level ++ " + " ++ toString (level + 1) ++ " = ?"
      options := [(level : Int), (level : Int) * 2, (level : Int) + level + 1, (level : Int) + 3]
      correct_answer := some 2 },
    { type := "mcq"
      question := toString (level + 5) ++ " − " ++ toString level ++ " = ?"
      options := [3, 5, (level : Int), (level : Int) + 2]
      correct_answer := some 1 },
    { type := "mcq"
      question := "What comes next? " ++ toString level ++ ", " ++ toString (level + 2) ++
        ", " ++ toString (level + 4) ++ ", ?"
      options := [(level : Int) + 5, (level : Int) + 6, (level : Int) + 8, (level : Int) + 10]
      correct_answer := some 1 },
    { type := "memory"
      memory := "Remember: " ++ toString level ++ "-" ++ toString (level + 3) ++ "-" ++
        toString (level + 5)
      answer := toString level ++ "-" ++ toString (level + 3) ++ "-" ++ toString (level + 5) },
    { type := "gesture"
      question := "Show gesture"
      target_gesture := ["✋", "✌️", "👌", "👍"].getD (level % 4) "" } ]

/-- Source: `fetchQuestions` (lines 18-48), from the call to the end of the `finally`
block. `outcome` is how the request ended and `shuffle` is the reordering that
`sort(() => 0.5 - Math.random())` produced. When the body has no `questions`, the spread
of line 39 throws outside the inner `try`: `setQuestions` and `setQIndex(0)` are skipped
and only the `finally` block runs. -/
def fetchQuestions (outcome : FetchOutcome) (shuffle : List Question → List Question)
    (lvl : Nat) (s : Session) : Session :=
  match outcome with
  | FetchOutcome.ok qs => { s with questions := shuffle qs, qIndex := 0, loading := false }
  | FetchOutcome.failed =>
    { s with questions := shuffle (generateDemoQuestions lvl), qIndex := 0, loading := false }
  | FetchOutcome.okNoQuestions => { s with loading := false }

/-- Source: `completeQuestion` (lines 56-68). The second component lists the requests
sent. `sessionId` is the constant of line 15 in the render that created the handler,
`outcome` and `shuffle` describe the question fetch in case one is started. -/
def completeQuestion (sessionId : String) (outcome : FetchOutcome)
    (shuffle : List Question → List Question) (qData metrics : JsObj) (s : Session) :
    Session × List Effect :=
  let result : JsObj :=
    spread (spread [("level", JsVal.num s.level), ("qIndex", JsVal.num s.qIndex)] qData)
      metrics
  let s1 : Session := { s with results := s.results ++ [result] }
  if s.qIndex < QUESTIONS_PER_LEVEL - 1 then
    ({ s1 with qIndex := s1.qIndex + 1 }, [])
  else if s.level < TOTAL_LEVELS then
    let nextLevel := s.level + 1
    (fetchQuestions outcome shuffle nextLevel { s1 with level := nextLevel },
      [Effect.levelQuestions nextLevel sessionId 8])
  else
    ({ s1 with state := SessionState.completed }, [])

/-- Source: `QuestionRenderer` with `MCQQuestion`, `MemoryQuestion` and
`GestureQuestion` (lines 141-275): the arguments `(qData, metrics)` with which the
processor of `question` calls `onComplete` when the child performs `action`, or `none`
when the processor shown for this question type offers no such action. -/
def QuestionRenderer (question : Question) (action : Action) : Option (JsObj × JsObj) :=
  if question.type = "mcq" then
    match action with
    | Action.submitOption selected time_taken =>
      if selected < question.options.length then
        some ([("selected", JsVal.num selected),
               ("correct", JsVal.bool (decide (some selected = question.correct_answer)))],
              [("time_taken", JsVal.num time_taken)])
      else none
    | _ => none
  else if question.type = "gesture" then
    match action with
    | Action.detectGesture =>
      some ([("gesture", JsVal.str question.target_gesture)],
            [("time_taken", JsVal.num 3000)])
    | _ => none
  else if question.type = "memory" then
    match action with
    | Action.submitText input time_taken =>
      some ([("input", JsVal.str input),
             ("correct", JsVal.bool (decide (jsTrim input = question.answer)))],
            [("time_taken", JsVal.num time_taken)])
    | _ => none
  else none

/-- The state variables after the first render (lines 8-15). -/
def initial (sessionId : String) : Session :=
  { state := SessionState.playing, level := 1, qIndex := 0, questions := [],
    loading := false, results := [], sessionId := sessionId, age := none }

/-- Source: the mount effect `fetchQuestions(1)` (lines 51-53). -/
def mount (sessionId : String) (outcome : FetchOutcome)
    (shuffle : List Question → List Question) : Session :=
  fetchQuestions outcome shuffle 1 (initial sessionId)

/-- One answered question: the child's action, the `sessionId` of the render in which
it happens, and how a question fetch started by it ends. -/
structure Answer where
  action : Action
  sessionId : String
  outcome : FetchOutcome
  shuffle : List Question → List Question

/-- One step of the session: the game screen is shown (`playing`, not loading, a
question at `qIndex`), the child acts on the question's processor and the processor
calls `completeQuestion`. `none` when the screen offers no such action. -/
def step (s : Session) (a : Answer) : Option Session :=
  if s.state = SessionState.playing ∧ s.loading = false then
    match s.questions[s.qIndex]? with
    | some q =>
      match QuestionRenderer q a.action with
      | some (qData, metrics) =>
        some (completeQuestion a.sessionId a.outcome a.shuffle qData metrics s).1
      | none => none
    | none => none
  else none

/-- A sequence of answered questions, oldest first; `none` as soon as one of them is
not possible. -/
def run (s : Session) : List Answer → Option Session
  | [] => some s
  | a :: rest =>
    match step s a with
    | some s1 => run s1 rest
    | none => none

end Pages

/-! ## `src/src/components/assesmentPage.jsx` -/

namespace Components

open Assessment

/-- Source: `generateDemoQuestions` (lines 243-248). -/
def generateDemoQuestions (level : Nat) : List Question :=
  [ { type := "mcq"
      question := toString level ++ "+" ++ toString level ++ "?"
      options := [(level : Int), (level : Int) + 1, (level : Int) + 2, (level : Int) + 3]
      correct_answer := some 1 },
    { type := "match"
      question := "Match shapes"
      left_items := ["⭐", "⚫"]
      right_items := ["Circle", "Star"]
      correct_matches := [(0, 1), (1, 0)] },
    { type := "memory"
      question := "Remember items"
      items_to_remember := ["🍎", "🚗"]
      all_items := ["🍎", "🚗", "⚽"] },
    { type := "gesture"
      question := "Show gesture"
      target_gesture := "✌️" } ]

/-- Source: `fetchQuestions` (lines 19-34), from the call to the end of the `finally`
block. The `catch` branch installs the demo questions and does not touch `qIndex`. When
the body has no `questions`, `setQuestions(undefined)` and `setQIndex(0)` run; the next
render fails reading `questions[qIndex]`, so no question is shown, which the empty list
stands for. -/
def fetchQuestions (outcome : FetchOutcome) (lvl : Nat) (s : Session) : Session :=
  match outcome with
  | FetchOutcome.ok qs => { s with questions := qs, qIndex := 0, loading := false }
  | FetchOutcome.failed => { s with questions := generateDemoQuestions lvl, loading := false }
  | FetchOutcome.okNoQuestions => { s with questions := [], qIndex := 0, loading := false }

/-- Source: `startGame` (lines 36-40), `age` being `child.age`. -/
def startGame (age : Nat) (outcome : FetchOutcome) (s : Session) : Session :=
  fetchQuestions outcome 1 { s with state := SessionState.playing, age := some age }

/-- Source: `completeGame` (lines 62-73). `results` is the constant of the render in
which the handler was created, the list before the record of the question being
completed is appended. Whether the request succeeds or not, `state` becomes
`completed`. -/
def completeGame (results : List JsObj) (s : Session) : Session × List Effect :=
  ({ s with state := SessionState.completed }, [Effect.analysis s.sessionId results])

/-- Source: `completeQuestion` (lines 42-60). `timestamp` is
`new Date().toISOString()`. The second component lists the requests sent, in order. -/
def completeQuestion (outcome : FetchOutcome) (timestamp : String)
    (qData metrics : JsObj) (s : Session) : Session × List Effect :=
  let result : JsObj :=
    setProp
      (spread (spread [("level", JsVal.num s.level), ("qIndex", JsVal.num s.qIndex)] qData)
        metrics)
      "timestamp" (JsVal.str timestamp)
  let s1 : Session := { s with results := s.results ++ [result] }
  let sent : List Effect :=
    [Effect.response (spread [("session_id", JsVal.str s.sessionId)] result)]
  if s.qIndex < QUESTIONS_PER_LEVEL - 1 then
    ({ s1 with qIndex := s.qIndex + 1 }, sent)
  else if s.level < TOTAL_LEVELS then
    (fetchQuestions outcome (s.level + 1) { s1 with level := s.level + 1 },
      sent ++ [Effect.levelQuestions (s.level + 1) s.sessionId
        (match s.age with
         | some a => if a = 0 then 8 else a
         | none => 8)])
  else
    let r := completeGame s.results s1
    (r.1, sent ++ r.2)

/-- Source: `QuestionRenderer` with `MCQQuestion`, `MatchQuestion`, `MemoryQuestion` and
`GestureQuestion` (lines 119-212): the arguments `(qData, metrics)` with which the
processor of `question` calls `onComplete` when the child performs `action`, or `none`
when the processor shown for this question type offers no such action (the match and
memory processors are placeholders without any control). -/
def QuestionRenderer (question : Question) (action : Action) : Option (JsObj × JsObj) :=
  if question.type = "mcq" then
    match action with
    | Action.submitOption sel time_taken =>
      if sel < question.options.length then
        some ([("selected", JsVal.num sel),
               ("correct", JsVal.bool (decide (some sel = question.correct_answer)))],
              [("time_taken", JsVal.num time_taken)])
      else none
    | _ => none
  else if question.type = "match" then none
  else if question.type = "memory" then none
  else if question.type = "gesture" then
    match action with
    | Action.detectGesture =>
      some ([("gesture_detected", JsVal.str question.target_gesture)],
            [("time_taken", JsVal.num 3000)])
    | _ => none
  else none

/-- The state variables after the first render (lines 9-16). -/
def initial (sessionId : String) : Session :=
  { state := SessionState.welcome, level := 1, qIndex := 0, questions := [],
    loading := false, results := [], sessionId := sessionId, age := none }

/-- One answered question: the child's action, the time stamp taken by
`completeQuestion`, and how a question fetch started by it ends. -/
structure Answer where
  action : Action
  timestamp : String
  outcome : FetchOutcome

/-- One step of the session: the game screen is shown (`playing`, not loading, a
question at `qIndex`), the child acts on the question's processor and the processor
calls `completeQuestion`. `none` when the screen offers no such action. -/
def step (s : Session) (a : Answer) : Option Session :=
  if s.state = SessionState.playing ∧ s.loading = false then
    match s.questions[s.qIndex]? with
    | some q =>
      match QuestionRenderer q a.action with
      | some (qData, metrics) =>
        some (completeQuestion a.outcome a.timestamp qData metrics s).1
      | none => none
    | none => none
  else none

/-- A sequence of answered questions, oldest first; `none` as soon as one of them is
not possible. -/
def run (s : Session) : List Answer → Option Session
  | [] => some s
  | a :: rest =>
    match step s a with
    | some s1 => run s1 rest
    | none => none

end Components

namespace Assessment

/-- While playing, the number of results is the number of questions already passed;
once completed it is 40. -/
def Counted (s : Session) : Prop :=
  (s.state = SessionState.playing ∧ 1 ≤ s.level ∧ s.level ≤ TOTAL_LEVELS ∧
      s.qIndex ≤ QUESTIONS_PER_LEVEL - 1 ∧
      s.results.length = QUESTIONS_PER_LEVEL * (s.level - 1) + s.qIndex) ∨
  (s.state = SessionState.completed ∧
    s.results.length = TOTAL_LEVELS * QUESTIONS_PER_LEVEL)

end Assessment

/-! ## Concrete sessions used below -/

namespace Components

open Assessment

/-- A multiple-choice question as the backend may send it: options 1 to 4, the second
one correct. -/
def backendMcq : Question :=
  { type := "mcq", question := "1+1?", options := [1, 2, 3, 4], correct_answer := some 1 }

/-- The session after `startGame` for a child of age 8 when the backend answers the
first fetch with four multiple-choice questions. -/
def started : Session :=
  startGame 8 (FetchOutcome.ok [backendMcq, backendMcq, backendMcq, backendMcq])
    (initial "session_0")

/-- Three submitted answers on level 1, no fetch being started by any of them. -/
def threeAnswers : List Answer :=
  List.replicate 3
    { action := Action.submitOption 1 1000, timestamp := "t", outcome := FetchOutcome.failed }

/-- The fourth answer of level 1, whose question fetch for level 2 fails. -/
def fourthAnswer : Answer :=
  { action := Action.submitOption 1 1000, timestamp := "t", outcome := FetchOutcome.failed }

/-- The answers of a session whose backend is lost after level 1: four submitted
options on level 1, then one simulated gesture detection on each of the levels 2 to 10,
every question fetch from level 2 on failing. -/
def backendLostAfterLevelOne : List Answer :=
  threeAnswers ++ [fourthAnswer] ++
    List.replicate 9
      { action := Action.detectGesture, timestamp := "t", outcome := FetchOutcome.failed }

end Components

/-! ## Sequences of recorded questions, and further concrete sessions -/

namespace Pages

open Assessment

/-- One call of `completeQuestion`: its arguments and how a question fetch started by
it ends. -/
structure Completion where
  sessionId : String
  outcome : FetchOutcome
  shuffle : List Question → List Question
  qData : JsObj
  metrics : JsObj

/-- The session after a sequence of `completeQuestion` calls, oldest first. -/
def completeAll (s : Session) (cs : List Completion) : Session :=
  cs.foldl
    (fun s c => (completeQuestion c.sessionId c.outcome c.shuffle c.qData c.metrics s).1) s

/-- The answers of a whole session without backend when the shuffle leaves the fallback
questions in place: on each of the ten levels three submitted options and one typed
answer. -/
def offlineAnswers : List Answer :=
  (List.replicate 10
    [ { action := Action.submitOption 1 1000, sessionId := "session_1",
        outcome := FetchOutcome.failed, shuffle := id },
      { action := Action.submitOption 1 1000, sessionId := "session_2",
        outcome := FetchOutcome.failed, shuffle := id },
      { action := Action.submitOption 1 1000, sessionId := "session_3",
        outcome := FetchOutcome.failed, shuffle := id },
      { action := Action.submitText "x" 1000, sessionId := "session_4",
        outcome := FetchOutcome.failed, shuffle := id } ]).flatten

end Pages

namespace Components

open Assessment

/-- One call of `completeQuestion`: its arguments and how a question fetch started by
it ends. -/
structure Completion where
  outcome : FetchOutcome
  timestamp : String
  qData : JsObj
  metrics : JsObj

/-- The session after a sequence of `completeQuestion` calls, oldest first. -/
def completeAll (s : Session) (cs : List Completion) : Session :=
  cs.foldl (fun s c => (completeQuestion c.outcome c.timestamp c.qData c.metrics s).1) s

/-- An answer to a multiple-choice question during which the backend answers a question
fetch with four multiple-choice questions. -/
def onlineAnswer : Answer :=
  { action := Action.submitOption 1 1000, timestamp := "t",
    outcome := FetchOutcome.ok [backendMcq, backendMcq, backendMcq, backendMcq] }

/-- The first 39 answers of a session whose backend answers every fetch. -/
def first39 : List Answer := List.replicate 39 onlineAnswer

/-- The session after `startGame` for a child of age 8 when the first question fetch
fails. -/
def offline : Session :=
  startGame 8 FetchOutcome.failed (initial "session_0")

end Components

/-! ## Vocabulary of the claims about answer keys -/

namespace Assessment

/-- The value of the option that a question's `correct_answer` points at. -/
def keyValue (q : Question) : Option Int :=
  match q.correct_answer with
  | some i => q.options[i]?
  | none => none

/-- The indices of the options of a question that carry the value `v`, in order. -/
def indicesCarrying (q : Question) (v : Int) : List Nat :=
  (List.range q.options.length).filter (fun i => q.options[i]? == some v)

/-- The levels of a session, 1 to `TOTAL_LEVELS`. -/
def levels : List Nat := List.range' 1 TOTAL_LEVELS

end Assessment

set_option maxRecDepth 100000

namespace GestureQuestionPage

/-! ## Evaluation lemmas for the classifier -/

theorem isFingerExtended_some (t p m : Landmark) :
    isFingerExtended (some t) (some p) (some m) =
      some (decide (t.y < p.y) && decide (p.y < m.y)) := by
  unfold isFingerExtended
  by_cases h : t.y < p.y <;> simp [h]

theorem isFingerFolded_some (t p : Landmark) :
    isFingerFolded (some t) (some p) = some (decide (t.y > p.y)) := rfl

/-- The value of `isTwoGesture` on a hand of exactly 21 landmarks. -/
theorem isTwoGesture_eval
    (l0 l1 l2 l3 l4 l5 l6 l7 l8 l9 l10 l11 l12 l13 l14 l15 l16 l17 l18 l19 l20 : Landmark) :
    isTwoGesture (some [l0, l1, l2, l3, l4, l5, l6, l7, l8, l9, l10, l11, l12, l13, l14,
        l15, l16, l17, l18, l19, l20]) =
      some ((decide (l8.y < l6.y) && decide (l6.y < l5.y)) &&
        (decide (l12.y < l10.y) && decide (l10.y < l9.y)) &&
        decide (l16.y > l14.y) && decide (l20.y > l18.y)) := by
  have e8 : [l0, l1, l2, l3, l4, l5, l6, l7, l8, l9, l10, l11, l12, l13, l14,
        l15, l16, l17, l18, l19, l20][8]? = some l8 := rfl
  have e6 : [l0, l1, l2, l3, l4, l5, l6, l7, l8, l9, l10, l11, l12, l13, l14,
        l15, l16, l17, l18, l19, l20][6]? = some l6 := rfl
  have e5 : [l0, l1, l2, l3, l4, l5, l6, l7, l8, l9, l10, l11, l12, l13, l14,
        l15, l16, l17, l18, l19, l20][5]? = some l5 := rfl
  have e12 : [l0, l1, l2, l3, l4, l5, l6, l7, l8, l9, l10, l11, l12, l13, l14,
        l15, l16, l17, l18, l19, l20][12]? = some l12 := rfl
  have e10 : [l0, l1, l2, l3, l4, l5, l6, l7, l8, l9, l10, l11, l12, l13, l14,
        l15, l16, l17, l18, l19, l20][10]? = some l10 := rfl
  have e9 : [l0, l1, l2, l3, l4, l5, l6, l7, l8, l9, l10, l11, l12, l13, l14,
        l15, l16, l17, l18, l19, l20][9]? = some l9 := rfl
  have e16 : [l0, l1, l2, l3, l4, l5, l6, l7, l8, l9, l10, l11, l12, l13, l14,
        l15, l16, l17, l18, l19, l20][16]? = some l16 := rfl
  have e14 : [l0, l1, l2, l3, l4, l5, l6, l7, l8, l9, l10, l11, l12, l13, l14,
        l15, l16, l17, l18, l19, l20][14]? = some l14 := rfl
  have e20 : [l0, l1, l2, l3, l4, l5, l6, l7, l8, l9, l10, l11, l12, l13, l14,
        l15, l16, l17, l18, l19, l20][20]? = some l20 := rfl
  have e18 : [l0, l1, l2, l3, l4, l5, l6, l7, l8, l9, l10, l11, l12, l13, l14,
        l15, l16, l17, l18, l19, l20][18]? = some l18 := rfl
  have hlen : [l0, l1, l2, l3, l4, l5, l6, l7, l8, l9, l10, l11, l12, l13, l14,
        l15, l16, l17, l18, l19, l20].length = 21 := rfl
  unfold isTwoGesture
  simp only [hlen, ne_eq, not_true_eq_false, if_false, e8, e6, e5, e12, e10, e9, e16, e14,
    e20, e18, isFingerExtended_some, isFingerFolded_some]

/-- A hand of exactly 21 landmarks is a list of 21 named landmarks. -/
theorem hand_eq_of_length (h : Hand) (hl : h.length = 21) :
    ∃ l0 l1 l2 l3 l4 l5 l6 l7 l8 l9 l10 l11 l12 l13 l14 l15 l16 l17 l18 l19 l20 : Landmark,
      h = [l0, l1, l2, l3, l4, l5, l6, l7, l8, l9, l10, l11, l12, l13, l14, l15, l16, l17,
        l18, l19, l20] := by
  match h, hl with
  | [l0, l1, l2, l3, l4, l5, l6, l7, l8, l9, l10, l11, l12, l13, l14, l15, l16, l17,
        l18, l19, l20], _ =>
    exact ⟨l0, l1, l2, l3, l4, l5, l6, l7, l8, l9, l10, l11, l12, l13, l14, l15, l16, l17,
        l18, l19, l20, rfl⟩

/-- On a hand of exactly 21 landmarks none of the array reads of the callback throws. -/
theorem reads_defined (h : Hand) (hl : h.length = 21) :
    (∃ b, isFingerExtended h[8]? h[6]? h[5]? = some b) ∧
    (∃ b, isFingerExtended h[12]? h[10]? h[9]? = some b) ∧
    (∃ b, isFingerFolded h[16]? h[14]? = some b) ∧
    (∃ b, isTwoGesture (some h) = some b) := by
  obtain ⟨l0, l1, l2, l3, l4, l5, l6, l7, l8, l9, l10, l11, l12, l13, l14, l15, l16, l17,
    l18, l19, l20, rfl⟩ := hand_eq_of_length h hl
  refine ⟨⟨_, isFingerExtended_some l8 l6 l5⟩, ⟨_, isFingerExtended_some l12 l10 l9⟩,
    ⟨_, isFingerFolded_some l16 l14⟩, ⟨_, isTwoGesture_eval _ _ _ _ _ _ _ _ _ _ _ _ _ _ _ _ _ _ _ _ _⟩⟩

/-- C1. On every hand of exactly 21 landmarks `isTwoGesture` returns (without throwing)
`true` exactly when the index finger is extended (`8.y < 6.y < 5.y`), the middle finger is
extended (`12.y < 10.y < 9.y`), the ring finger is folded (`16.y > 14.y`) and the pinky is
folded (`20.y > 18.y`); if any one of the four conditions fails the result is `false`; and
replacing the thumb landmarks 1-4 by any others does not change the result. -/
theorem isTwoGesture_iff_four_conditions
    (l0 l1 l2 l3 l4 l5 l6 l7 l8 l9 l10 l11 l12 l13 l14 l15 l16 l17 l18 l19 l20 : Landmark) :
    (isTwoGesture (some [l0, l1, l2, l3, l4, l5, l6, l7, l8, l9, l10, l11, l12, l13, l14,
        l15, l16, l17, l18, l19, l20]) = some true ↔
      (l8.y < l6.y ∧ l6.y < l5.y) ∧ (l12.y < l10.y ∧ l10.y < l9.y) ∧
        l16.y > l14.y ∧ l20.y > l18.y) ∧
    (¬ ((l8.y < l6.y ∧ l6.y < l5.y) ∧ (l12.y < l10.y ∧ l10.y < l9.y) ∧
        l16.y > l14.y ∧ l20.y > l18.y) →
      isTwoGesture (some [l0, l1, l2, l3, l4, l5, l6, l7, l8, l9, l10, l11, l12, l13, l14,
        l15, l16, l17, l18, l19, l20]) = some false) ∧
    (∀ t1 t2 t3 t4 : Landmark,
      isTwoGesture (some [l0, t1, t2, t3, t4, l5, l6, l7, l8, l9, l10, l11, l12, l13, l14,
        l15, l16, l17, l18, l19, l20]) =
      isTwoGesture (some [l0, l1, l2, l3, l4, l5, l6, l7, l8, l9, l10, l11, l12, l13, l14,
        l15, l16, l17, l18, l19, l20])) := by
  refine ⟨?_, ?_, ?_⟩
  · rw [isTwoGesture_eval]
    simp only [Option.some.injEq, Bool.and_eq_true, decide_eq_true_eq]
    tauto
  · intro h
    rw [isTwoGesture_eval]
    simp only [Option.some.injEq]
    by_contra hc
    apply h
    have ht : ((decide (l8.y < l6.y) && decide (l6.y < l5.y)) &&
        (decide (l12.y < l10.y) && decide (l10.y < l9.y)) &&
        decide (l16.y > l14.y) && decide (l20.y > l18.y)) = true :=
      (Bool.not_eq_false _).mp hc
    simp only [Bool.and_eq_true, decide_eq_true_eq] at ht
    tauto
  · intro t1 t2 t3 t4
    rw [isTwoGesture_eval, isTwoGesture_eval]

theorem isTwoGesture_of_length_ne (h : Hand) (hl : h.length ≠ 21) :
    isTwoGesture (some h) = some false := by
  simp [isTwoGesture, hl]

/-! ## Malformed input to the classifier -/

/-- C12. `isTwoGesture` returns `false`, without throwing, on an absent hand and on every
hand whose number of landmarks is not 21. -/
theorem isTwoGesture_false_of_malformed :
    isTwoGesture none = some false ∧
    ∀ h : Hand, h.length ≠ 21 → isTwoGesture (some h) = some false :=
  ⟨rfl, isTwoGesture_of_length_ne⟩

/-- The classifier on no hand, on an empty array and on 20 landmarks. -/
theorem isTwoGesture_false_of_malformed_witness :
    isTwoGesture none = some false ∧ isTwoGesture (some []) = some false ∧
    isTwoGesture (some shortHand) = some false :=
  ⟨isTwoGesture_false_of_malformed.1, isTwoGesture_false_of_malformed.2 [] (by decide),
    isTwoGesture_false_of_malformed.2 shortHand (by decide)⟩

/-! ## One tick, processed by a callback whose render had the status `c` -/

theorem handOf_eq_none (t : Tick) (h : handOf t = none) :
    t.results.multiHandLandmarks = none ∨ t.results.multiHandLandmarks = some [] := by
  unfold handOf at h
  split at h
  · exact absurd h (by simp)
  · rename_i hne
    cases hm : t.results.multiHandLandmarks with
    | none => exact Or.inl rfl
    | some l =>
      cases l with
      | nil => exact Or.inr rfl
      | cons a r => exact absurd hm (hne a r)

theorem handOf_eq_some (t : Tick) (h : Hand) (hh : handOf t = some h) :
    ∃ rest, t.results.multiHandLandmarks = some (h :: rest) := by
  unfold handOf at hh
  split at hh
  · rename_i h0 r hm
    simp only [Option.some.injEq] at hh
    exact ⟨r, by rw [hm, hh]⟩
  · exact absurd hh (by simp)

/-- A tick without a hand: only a callback that reads detecting examines the attention
window; any other does nothing. -/
theorem tickReading_noHand (c : Status) (s : State) (t : Tick) (h : handOf t = none) :
    tickReading c s t =
      if c = Status.detecting then
        if t.now - s.metricsRef.lastSeen > 600 then
          { s with
            metricsRef := { s.metricsRef with
              attentionLoss := s.metricsRef.attentionLoss + 1
              lastSeen := t.now } }
        else s
      else s := by
  unfold tickReading onResults
  rcases handOf_eq_none t h with hm | hm <;> rw [hm] <;> simp only [Bool.true_eq_false, if_false] <;>
    split_ifs <;> rfl

/-- A tick with a hand of 21 landmarks: the callback returns, `lastSeen` is set, a low
score is counted, and the counter is advanced (by a callback that reads detecting, on a
positive frame) or reset. -/
theorem tickReading_hand (c : Status) (s : State) (t : Tick) (h : Hand)
    (hh : handOf t = some h) (hl : h.length = 21) :
    tickReading c s t =
      if c = Status.detecting ∧ isTwoGesture (some h) = some true then
        if s.stableCounter + 1 > 10 then
          { status := Status.success
            stableCounter := s.stableCounter + 1
            metricsRef :=
              if confidence t.results < 0.6 then
                { s.metricsRef with lastSeen := t.now, lowConfidence := s.metricsRef.lowConfidence + 1 }
              else { s.metricsRef with lastSeen := t.now }
            saved := s.saved ++
              [{ timeTaken := t.now - s.metricsRef.startTime.getD 0
                 isCorrect := true
                 attentionLost := s.metricsRef.attentionLoss
                 sluggishness :=
                   if confidence t.results < 0.6 then s.metricsRef.lowConfidence + 1
                   else s.metricsRef.lowConfidence }]
            cameraStopped := true }
        else
          { s with
            stableCounter := s.stableCounter + 1
            metricsRef :=
              if confidence t.results < 0.6 then
                { s.metricsRef with lastSeen := t.now, lowConfidence := s.metricsRef.lowConfidence + 1 }
              else { s.metricsRef with lastSeen := t.now } }
      else
        { s with
          stableCounter := 0
          metricsRef :=
            if confidence t.results < 0.6 then
              { s.metricsRef with lastSeen := t.now, lowConfidence := s.metricsRef.lowConfidence + 1 }
            else { s.metricsRef with lastSeen := t.now } } := by
  obtain ⟨rest, hm⟩ := handOf_eq_some t h hh
  obtain ⟨⟨b1, h1⟩, ⟨b2, h2⟩, ⟨b3, h3⟩, ⟨b4, h4⟩⟩ := reads_defined h hl
  unfold tickReading onResults
  simp only [hm, Bool.true_eq_false, if_false, h1, h2, h3, h4]
  by_cases hs : c = Status.detecting
  · cases b4 with
    | true =>
      by_cases hc : confidence t.results < 0.6 <;> by_cases hk : s.stableCounter + 1 > 10 <;>
        simp [hs, hc, hk, stateAfter]
    | false =>
      by_cases hc : confidence t.results < 0.6 <;> simp [hs, hc, stateAfter]
  · by_cases hc : confidence t.results < 0.6 <;> simp [hs, hc, stateAfter]

theorem length_of_isTwoGesture_true (h : Hand) (hp : isTwoGesture (some h) = some true) :
    h.length = 21 := by
  by_contra hne
  simp [isTwoGesture, hne] at hp

theorem positive_iff (t : Tick) :
    positive t = true ↔ ∃ h, handOf t = some h ∧ isTwoGesture (some h) = some true := by
  unfold positive
  cases hh : handOf t with
  | none => simp
  | some h => simp

theorem wellFormed_of_positive (t : Tick) (hp : positive t = true) : wellFormed t = true := by
  obtain ⟨h, hh, hg⟩ := (positive_iff t).mp hp
  simp [wellFormed, hh, length_of_isTwoGesture_true h hg]

theorem wellFormed_of_noHand (t : Tick) (hn : noHand t = true) : wellFormed t = true := by
  have hh : handOf t = none := by simpa [noHand] using hn
  simp [wellFormed, hh]

/-- After a tick with a hand, whatever its landmarks, whatever the callback reads and
whether or not it returns: `lastSeen` is the tick's time and a confidence below 0.6 has
been counted once. -/
theorem tickReading_hand_metrics (c : Status) (s : State) (t : Tick) (h : Hand)
    (hh : handOf t = some h) :
    (tickReading c s t).metricsRef =
      if confidence t.results < 0.6 then
        { s.metricsRef with lastSeen := t.now, lowConfidence := s.metricsRef.lowConfidence + 1 }
      else { s.metricsRef with lastSeen := t.now } := by
  obtain ⟨rest, hm⟩ := handOf_eq_some t h hh
  unfold tickReading onResults
  simp only [hm, Bool.true_eq_false, if_false]
  repeat' split
  all_goals simp_all [stateAfter]

/-- A tick changes status and saved records only by the step to success, which needs a
callback that reads detecting, a positive frame and a counter of at least 10, and adds
one record. -/
theorem tickReading_status_saved (c : Status) (s : State) (t : Tick) :
    ((tickReading c s t).status = s.status ∧ (tickReading c s t).saved = s.saved) ∨
    (c = Status.detecting ∧ positive t = true ∧ 10 ≤ s.stableCounter ∧
      (tickReading c s t).status = Status.success ∧
      ∃ m, (tickReading c s t).saved = s.saved ++ [m]) := by
  cases hh : handOf t with
  | none =>
    left
    rw [tickReading_noHand c s t hh]
    split_ifs <;> simp
  | some h =>
    obtain ⟨rest, hm⟩ := handOf_eq_some t h hh
    by_cases hp : positive t = true
    · obtain ⟨h0, hh0, hg⟩ := (positive_iff t).mp hp
      rw [tickReading_hand c s t h0 hh0 (length_of_isTwoGesture_true h0 hg)]
      by_cases hs : c = Status.detecting
      · by_cases hk : s.stableCounter + 1 > 10
        · right
          simp [hs, hg, hk, hp]
          omega
        · left
          simp [hs, hg, hk]
      · left
        simp [hs]
    · left
      have hg : ¬ isTwoGesture (some h) = some true := fun hg =>
        hp ((positive_iff t).mpr ⟨h, hh, hg⟩)
      unfold tickReading onResults
      simp only [hm, Bool.true_eq_false, if_false]
      repeat' split
      all_goals simp_all [stateAfter]

/-- No tick raises the counter by more than one. -/
theorem tickReading_counter_le (c : Status) (s : State) (t : Tick) :
    (tickReading c s t).stableCounter ≤ s.stableCounter + 1 := by
  cases hh : handOf t with
  | none =>
    rw [tickReading_noHand c s t hh]
    split_ifs <;> simp
  | some h =>
    obtain ⟨rest, hm⟩ := handOf_eq_some t h hh
    unfold tickReading onResults
    simp only [hm, Bool.true_eq_false, if_false]
    repeat' split
    all_goals simp_all [stateAfter]

/-- A positive frame processed by a callback that reads detecting adds one to the
counter and writes success exactly when the new counter exceeds 10. -/
theorem tickReading_positive (s : State) (t : Tick) (hp : positive t = true) :
    (tickReading Status.detecting s t).stableCounter = s.stableCounter + 1 ∧
    (tickReading Status.detecting s t).status =
      if s.stableCounter + 1 > 10 then Status.success else s.status := by
  obtain ⟨h, hh, hg⟩ := (positive_iff t).mp hp
  rw [tickReading_hand _ s t h hh (length_of_isTwoGesture_true h hg)]
  by_cases hk : s.stableCounter + 1 > 10 <;> simp [hg, hk]

/-- A hand frame of 21 landmarks that is not positive resets the counter and leaves the
status alone, whatever the callback reads. -/
theorem tickReading_negative (c : Status) (s : State) (t : Tick) (hw : wellFormed t = true)
    (hn : noHand t = false) (hp : positive t = false) :
    (tickReading c s t).stableCounter = 0 ∧ (tickReading c s t).status = s.status := by
  cases hh : handOf t with
  | none => simp [noHand, hh] at hn
  | some h =>
    have hl : h.length = 21 := by simpa [wellFormed, hh] using hw
    have hg : ¬ isTwoGesture (some h) = some true := by
      intro hg
      have : positive t = true := (positive_iff t).mpr ⟨h, hh, hg⟩
      rw [hp] at this
      exact absurd this (by simp)
    rw [tickReading_hand c s t h hh hl]
    simp [hg]

/-- A tick without a hand leaves counter, status and saved records alone, whatever the
callback reads. -/
theorem tickReading_noHand_counter (c : Status) (s : State) (t : Tick) (hn : noHand t = true) :
    (tickReading c s t).stableCounter = s.stableCounter ∧
    (tickReading c s t).status = s.status := by
  have hh : handOf t = none := by simpa [noHand] using hn
  rw [tickReading_noHand c s t hh]
  split_ifs <;> simp

/-- On a tick without a hand, or with a hand of 21 landmarks, the callback returns. -/
theorem onResults_ok (c : Status) (s : State) (t : Tick) (hw : wellFormed t = true) :
    onResults c true t.now t.results s = Except.ok (tickReading c s t) := by
  cases hh : handOf t with
  | none =>
    unfold tickReading onResults
    rcases handOf_eq_none t hh with hm | hm <;> rw [hm] <;>
      simp only [Bool.true_eq_false, if_false] <;> split_ifs <;> rfl
  | some h =>
    have hl : h.length = 21 := by simpa [wellFormed, hh] using hw
    obtain ⟨rest, hm⟩ := handOf_eq_some t h hh
    obtain ⟨⟨b1, h1⟩, ⟨b2, h2⟩, ⟨b3, h3⟩, ⟨b4, h4⟩⟩ := reads_defined h hl
    unfold tickReading onResults
    simp only [hm, Bool.true_eq_false, if_false, h1, h2, h3, h4]
    by_cases hs : c = Status.detecting
    · cases b4 with
      | true => by_cases hk : s.stableCounter + 1 > 10 <;> simp [hs, hk, stateAfter]
      | false => simp [hs, stateAfter]
    · simp [hs, stateAfter]

theorem runReading_append (reads : State → Status) (s : State) (ts us : List Tick) :
    runReading reads s (ts ++ us) = runReading reads (runReading reads s ts) us := by
  simp [runReading, List.foldl_append]

theorem runReading_concat (reads : State → Status) (s : State) (ts : List Tick) (t : Tick) :
    runReading reads s (ts ++ [t])
      = tickReading (reads (runReading reads s ts)) (runReading reads s ts) t := by
  simp [runReading, List.foldl_append]

/-- The program is the run in which every tick is processed by a callback that reads
the registered status. -/
theorem runTicks_eq_runReading (s : State) (ts : List Tick) :
    runTicks s ts = runReading (fun _ => registeredStatus) s ts := rfl

/-! ## The program: every tick is processed by the registered callback -/

/-- The registered callback reads waiting: a tick leaves status, saved records, camera
and attention loss count alone, and leaves the counter alone or sets it to 0. -/
theorem tick_frozen (s : State) (t : Tick) :
    (tick s t).status = s.status ∧ (tick s t).saved = s.saved ∧
    (tick s t).metricsRef.attentionLoss = s.metricsRef.attentionLoss ∧
    ((tick s t).stableCounter = 0 ∨ (tick s t).stableCounter = s.stableCounter) := by
  cases hh : handOf t with
  | none =>
    unfold tick
    rw [tickReading_noHand _ s t hh]
    simp [registeredStatus]
  | some h =>
    obtain ⟨rest, hm⟩ := handOf_eq_some t h hh
    unfold tick tickReading onResults
    simp only [hm, Bool.true_eq_false, if_false, registeredStatus]
    repeat' split
    all_goals simp_all [stateAfter]

/-- In the program no sequence of ticks changes the status or emits a metrics record. -/
theorem runTicks_frozen (s : State) (ts : List Tick) :
    (runTicks s ts).status = s.status ∧ (runTicks s ts).saved = s.saved ∧
    (runTicks s ts).metricsRef.attentionLoss = s.metricsRef.attentionLoss := by
  induction ts generalizing s with
  | nil => exact ⟨rfl, rfl, rfl⟩
  | cons t rest ih =>
    obtain ⟨h1, h2, h3, _⟩ := tick_frozen s t
    obtain ⟨i1, i2, i3⟩ := ih (tick s t)
    exact ⟨i1.trans h1, i2.trans h2, i3.trans h3⟩

/-- In the program the counter is 0 in every state reached from the mounted component
by sensor ticks and clicks on Start Test. -/
theorem runEvents_counter_zero (s : State) (hs : s.stableCounter = 0) (es : List Event) :
    (runEvents s es).stableCounter = 0 := by
  induction es generalizing s with
  | nil => exact hs
  | cons e rest ih =>
    apply ih
    cases e with
    | sensorTick t =>
      rcases (tick_frozen s t).2.2.2 with h | h
      · exact h
      · exact h.trans hs
    | startClicked now => rfl

/-- C2, on the code: after Start Test, eleven consecutive positive frames leave the
status detecting, the counter 0 and no metrics record saved. The callback that processes
the frames is the one registered after the first render, which reads `status` as
waiting, so the test of line 95 fails on every frame and line 113 resets the counter. -/
theorem registered_callback_never_succeeds :
    registeredStatus = Status.waiting ∧
    (startTest 0 (mounted 0)).status = Status.detecting ∧
    (startTest 0 (mounted 0)).stableCounter = 0 ∧
    elevenPositive.length = 11 ∧
    elevenPositive.all positive = true ∧
    (runTicks (startTest 0 (mounted 0)) elevenPositive).status = Status.detecting ∧
    (runTicks (startTest 0 (mounted 0)) elevenPositive).stableCounter = 0 ∧
    (runTicks (startTest 0 (mounted 0)) elevenPositive).saved = [] := by
  refine ⟨rfl, rfl, rfl, by decide, by decide, ?_, ?_, ?_⟩ <;> with_unfolding_all decide

/-- The same eleven frames processed by a callback that reads the status last written:
the eleventh gives success and one saved record. This is the logic of lines 95-111 that
the registered callback never reaches. -/
theorem eleven_frames_when_reading_written_status :
    (runReading (fun s => s.status) (startTest 0 (mounted 0))
        (elevenPositive.take 10)).status = Status.detecting ∧
    (runReading (fun s => s.status) (startTest 0 (mounted 0))
        (elevenPositive.take 10)).stableCounter = 10 ∧
    (runReading (fun s => s.status) (startTest 0 (mounted 0)) elevenPositive).status
      = Status.success ∧
    (runReading (fun s => s.status) (startTest 0 (mounted 0)) elevenPositive).saved.length
      = 1 := by
  refine ⟨?_, ?_, ?_, ?_⟩ <;> with_unfolding_all decide

/-! ## The counter on a frame without the gesture, and on a tick without a hand -/

/-- C4. In every state the program reaches from the mounted component by sensor ticks
and clicks on Start Test, the counter is 0 after a tick on which the gesture predicate
is false and after a tick on which no hand frame is seen. (The counter is 0 in every such
state, see `runEvents_counter_zero`: the registered callback never advances it.) -/
theorem counter_zero_after_negative_or_absent (now0 : Int) (es : List Event) (t : Tick)
    (_h : handOf t = none ∨
      ∃ hand, handOf t = some hand ∧ isTwoGesture (some hand) = some false) :
    (tick (runEvents (mounted now0) es) t).stableCounter = 0 := by
  have h0 : (runEvents (mounted now0) es).stableCounter = 0 :=
    runEvents_counter_zero (mounted now0) rfl es
  rcases (tick_frozen (runEvents (mounted now0) es) t).2.2.2 with h1 | h1
  · exact h1
  · exact h1.trans h0

/-- The theorem applied after Start Test and three positive frames, to a flat hand and to
a tick without a hand. -/
theorem counter_zero_after_negative_or_absent_witness :
    (tick (runEvents (mounted 0)
        [Event.startClicked 0, Event.sensorTick (handTick 33 twoHand),
          Event.sensorTick (handTick 66 twoHand), Event.sensorTick (handTick 99 twoHand)])
      (handTick 132 flatHand)).stableCounter = 0 ∧
    (tick (runEvents (mounted 0)
        [Event.startClicked 0, Event.sensorTick (handTick 33 twoHand),
          Event.sensorTick (handTick 66 twoHand), Event.sensorTick (handTick 99 twoHand)])
      (noHandTick 132)).stableCounter = 0 :=
  ⟨counter_zero_after_negative_or_absent 0 _ (handTick 132 flatHand)
      (Or.inr ⟨flatHand, rfl, by decide⟩),
    counter_zero_after_negative_or_absent 0 _ (noHandTick 132) (Or.inl rfl)⟩

/-! ## The attention window -/

/-- What the no-hand branch (lines 115-120) does in a callback that reads detecting: if
`now - lastSeen > 600` then `attentionLoss` grows by exactly 1 and `lastSeen` becomes
`now`; otherwise (also at exactly 600) both are unchanged; `lowConfidence` is unchanged
either way. -/
theorem attention_window_when_reading_detecting (s : State) (t : Tick)
    (hn : noHand t = true) :
    ∃ s1, onResults Status.detecting true t.now t.results s = Except.ok s1 ∧
      (t.now - s.metricsRef.lastSeen > 600 →
        s1.metricsRef.attentionLoss = s.metricsRef.attentionLoss + 1 ∧
        s1.metricsRef.lastSeen = t.now) ∧
      (t.now - s.metricsRef.lastSeen ≤ 600 →
        s1.metricsRef.attentionLoss = s.metricsRef.attentionLoss ∧
        s1.metricsRef.lastSeen = s.metricsRef.lastSeen) ∧
      s1.metricsRef.lowConfidence = s.metricsRef.lowConfidence := by
  have hh : handOf t = none := by simpa [noHand] using hn
  refine ⟨_, onResults_ok _ s t (wellFormed_of_noHand t hn), ?_, ?_, ?_⟩
  · intro h
    rw [tickReading_noHand _ s t hh, if_pos rfl, if_pos h]
    exact ⟨rfl, rfl⟩
  · intro h
    rw [tickReading_noHand _ s t hh, if_pos rfl, if_neg (by omega)]
    exact ⟨rfl, rfl⟩
  · rw [tickReading_noHand _ s t hh]
    split_ifs <;> rfl

/-- C10, on the code: with the status detecting after Start Test at time 0, a tick
without a hand at 700 ms, more than 600 ms after `lastSeen`, is processed by the
registered callback, which returns leaving `attentionLoss` at 0 and `lastSeen` at 0: the
callback reads `status` as waiting and skips the branch of lines 115-120. -/
theorem registered_callback_ignores_absence :
    (startTest 0 (mounted 0)).status = Status.detecting ∧
    (startTest 0 (mounted 0)).metricsRef.lastSeen = 0 ∧
    noHand (noHandTick 700) = true ∧
    (noHandTick 700).now - (startTest 0 (mounted 0)).metricsRef.lastSeen = 700 ∧
    onResults registeredStatus true (noHandTick 700).now (noHandTick 700).results
      (startTest 0 (mounted 0)) = Except.ok (startTest 0 (mounted 0)) ∧
    (tick (startTest 0 (mounted 0)) (noHandTick 700)).metricsRef.attentionLoss = 0 ∧
    (tick (startTest 0 (mounted 0)) (noHandTick 700)).metricsRef.lastSeen = 0 := by
  refine ⟨rfl, rfl, rfl, by decide, rfl, rfl, rfl⟩

/-! ## Nine frames, one negative frame, ten frames -/

/-- Along ticks that are too few to bring the counter above 10, whatever the callbacks
read: the status is unchanged, no record is saved and the counter has grown by at most
one per tick. -/
theorem run_below_threshold (reads : State → Status) (ts : List Tick) (s : State)
    (hb : s.stableCounter + ts.length ≤ 10) :
    (runReading reads s ts).status = s.status ∧
    (runReading reads s ts).saved = s.saved ∧
    (runReading reads s ts).stableCounter ≤ s.stableCounter + ts.length := by
  induction ts generalizing s with
  | nil => exact ⟨rfl, rfl, Nat.le_refl _⟩
  | cons t rest ih =>
    simp only [List.length_cons] at hb
    have hc := tickReading_counter_le (reads s) s t
    have hst : (tickReading (reads s) s t).status = s.status ∧
        (tickReading (reads s) s t).saved = s.saved := by
      rcases tickReading_status_saved (reads s) s t with h | ⟨_, _, h10, _⟩
      · exact h
      · omega
    obtain ⟨i1, i2, i3⟩ := ih (tickReading (reads s) s t) (by omega)
    refine ⟨i1.trans hst.1, i2.trans hst.2, ?_⟩
    simp only [List.length_cons]
    have : runReading reads s (t :: rest) = runReading reads (tickReading (reads s) s t) rest := rfl
    rw [this]
    omega

/-- C3, on the code: after Start Test, nine positive frames, one negative frame and ten
positive frames leave the status detecting at the twentieth frame: success is not
reached. -/
theorem nine_one_ten_not_success :
    nineOneTen.length = 20 ∧
    (nineOneTen.take 9).all positive = true ∧
    (nineOneTen.drop 10).all positive = true ∧
    (nineOneTen.drop 9).head?.map positive = some false ∧
    (startTest 0 (mounted 0)).status = Status.detecting ∧
    (startTest 0 (mounted 0)).stableCounter = 0 ∧
    (runTicks (startTest 0 (mounted 0)) nineOneTen).status = Status.detecting := by
  refine ⟨by decide, by decide, by decide, by decide, rfl, rfl, ?_⟩
  with_unfolding_all decide

/-- C3, as the code has it. From a freshly started test (status detecting, counter 0),
along nine frames, one negative hand frame and ten frames, in particular when the nine
and the ten are positive, and whatever status the callbacks read: after each of the 20
frames the status is still detecting and no record is saved, the counter after `n` frames
is at most `n` up to the ninth and at most `n - 10` afterwards, so it never exceeds 10,
and it is 0 right after the negative frame. -/
theorem nine_one_ten_stays_detecting (reads : State → Status) (s0 : State)
    (hs : s0.status = Status.detecting) (hc : s0.stableCounter = 0)
    (pos1 pos2 : List Tick) (neg : Tick) (h1 : pos1.length = 9)
    (hw : wellFormed neg = true) (hn : noHand neg = false) (hneg : positive neg = false)
    (h2 : pos2.length = 10) :
    (∀ n, n ≤ 20 →
      (runReading reads s0 ((pos1 ++ neg :: pos2).take n)).status = Status.detecting ∧
      (runReading reads s0 ((pos1 ++ neg :: pos2).take n)).saved = s0.saved ∧
      (runReading reads s0 ((pos1 ++ neg :: pos2).take n)).stableCounter
        ≤ (if n ≤ 9 then n else n - 10) ∧
      (runReading reads s0 ((pos1 ++ neg :: pos2).take n)).stableCounter ≤ 10) ∧
    (runReading reads s0 ((pos1 ++ neg :: pos2).take 10)).stableCounter = 0 := by
  have key : ∀ n, n ≤ 20 →
      (runReading reads s0 ((pos1 ++ neg :: pos2).take n)).status = Status.detecting ∧
      (runReading reads s0 ((pos1 ++ neg :: pos2).take n)).saved = s0.saved ∧
      (runReading reads s0 ((pos1 ++ neg :: pos2).take n)).stableCounter
        ≤ (if n ≤ 9 then n else n - 10) := by
    intro n hle
    by_cases h9 : n ≤ 9
    · rw [List.take_append_of_le_length (by omega)]
      obtain ⟨a1, a2, a3⟩ := run_below_threshold reads (pos1.take n) s0
        (by rw [hc, List.length_take]; omega)
      rw [List.length_take, hc] at a3
      refine ⟨a1.trans hs, a2, ?_⟩
      rw [if_pos h9]
      omega
    · obtain ⟨k, rfl⟩ : ∃ k, n = 9 + (k + 1) := ⟨n - 10, by omega⟩
      have e : (pos1 ++ neg :: pos2).take (9 + (k + 1)) = pos1 ++ ([neg] ++ pos2.take k) := by
        have := @List.take_append _ pos1 (neg :: pos2) (k + 1)
        rw [h1] at this
        rw [this]
        rfl
      rw [e, runReading_append, runReading_append]
      obtain ⟨a1, a2, a3⟩ := run_below_threshold reads pos1 s0 (by rw [hc, h1]; omega)
      have b := tickReading_negative (reads (runReading reads s0 pos1))
        (runReading reads s0 pos1) neg hw hn hneg
      have bs := tickReading_status_saved (reads (runReading reads s0 pos1))
        (runReading reads s0 pos1) neg
      have hneg1 : runReading reads (runReading reads s0 pos1) [neg]
          = tickReading (reads (runReading reads s0 pos1)) (runReading reads s0 pos1) neg := rfl
      have bsaved : (runReading reads (runReading reads s0 pos1) [neg]).saved = s0.saved := by
        rw [hneg1]
        rcases bs with h | ⟨_, hp, _⟩
        · exact h.2.trans a2
        · rw [hneg] at hp
          exact absurd hp (by simp)
      have hz : (runReading reads (runReading reads s0 pos1) [neg]).stableCounter = 0 := by
        rw [hneg1]
        exact b.1
      obtain ⟨c1, c2, c3⟩ := run_below_threshold reads (pos2.take k)
        (runReading reads (runReading reads s0 pos1) [neg])
        (by rw [hz, List.length_take]; omega)
      rw [hz, List.length_take] at c3
      refine ⟨?_, c2.trans bsaved, ?_⟩
      · rw [c1, hneg1, b.2, a1, hs]
      · rw [if_neg h9]
        omega
  refine ⟨fun n hle => ?_, ?_⟩
  · obtain ⟨k1, k2, k3⟩ := key n hle
    refine ⟨k1, k2, k3, ?_⟩
    split_ifs at k3 <;> omega
  · have := (key 10 (by omega)).2.2
    simp at this
    exact this

/-- The theorem applied to the program after Start Test and to the concrete sequence of
twenty frames. -/
theorem nine_one_ten_stays_detecting_witness :
    (∀ n, n ≤ 20 →
      (runReading (fun _ => registeredStatus) (startTest 0 (mounted 0))
        (((List.range 9).map (fun i => handTick (33 * (i + 1)) twoHand) ++
          handTick 330 flatHand ::
          (List.range 10).map (fun i => handTick (363 + 33 * i) twoHand)).take n)).status
        = Status.detecting ∧
      (runReading (fun _ => registeredStatus) (startTest 0 (mounted 0))
        (((List.range 9).map (fun i => handTick (33 * (i + 1)) twoHand) ++
          handTick 330 flatHand ::
          (List.range 10).map (fun i => handTick (363 + 33 * i) twoHand)).take n)).saved
        = (startTest 0 (mounted 0)).saved ∧
      (runReading (fun _ => registeredStatus) (startTest 0 (mounted 0))
        (((List.range 9).map (fun i => handTick (33 * (i + 1)) twoHand) ++
          handTick 330 flatHand ::
          (List.range 10).map (fun i => handTick (363 + 33 * i) twoHand)).take n)).stableCounter
        ≤ (if n ≤ 9 then n else n - 10) ∧
      (runReading (fun _ => registeredStatus) (startTest 0 (mounted 0))
        (((List.range 9).map (fun i => handTick (33 * (i + 1)) twoHand) ++
          handTick 330 flatHand ::
          (List.range 10).map (fun i => handTick (363 + 33 * i) twoHand)).take n)).stableCounter
        ≤ 10) ∧
    (runReading (fun _ => registeredStatus) (startTest 0 (mounted 0))
      (((List.range 9).map (fun i => handTick (33 * (i + 1)) twoHand) ++
        handTick 330 flatHand ::
        (List.range 10).map (fun i => handTick (363 + 33 * i) twoHand)).take 10)).stableCounter
      = 0 :=
  nine_one_ten_stays_detecting (fun _ => registeredStatus) (startTest 0 (mounted 0)) rfl rfl
    ((List.range 9).map (fun i => handTick (33 * (i + 1)) twoHand))
    ((List.range 10).map (fun i => handTick (363 + 33 * i) twoHand))
    (handTick 330 flatHand) (by decide) (by decide) (by decide) (by decide) (by decide)

/-- The twenty frames processed by a callback that reads the status last written: the
counter is 10 after the twentieth, which does not exceed 10, and one more positive frame
gives success. -/
theorem nine_one_ten_when_reading_written_status :
    (runReading (fun s => s.status) (startTest 0 (mounted 0)) nineOneTen).status
      = Status.detecting ∧
    (runReading (fun s => s.status) (startTest 0 (mounted 0)) nineOneTen).stableCounter = 10 ∧
    (runReading (fun s => s.status) (startTest 0 (mounted 0))
        (nineOneTen ++ [handTick 693 twoHand])).status = Status.success := by
  refine ⟨?_, ?_, ?_⟩ <;> with_unfolding_all decide

/-! ## Loss events along an absence -/

/-- Along ticks without a hand, whatever the callbacks read: the loss count does not
decrease, `lastSeen` has advanced by more than 600 ms per loss event, and it is either
untouched or the time of one of the ticks. -/
theorem absent_run_invariant (reads : State → Status) (s : State) (ts : List Tick)
    (hn : ∀ t ∈ ts, noHand t = true) :
    s.metricsRef.attentionLoss ≤ (runReading reads s ts).metricsRef.attentionLoss ∧
    s.metricsRef.lastSeen +
        601 * (((runReading reads s ts).metricsRef.attentionLoss : Int)
          - s.metricsRef.attentionLoss)
      ≤ (runReading reads s ts).metricsRef.lastSeen ∧
    (s.metricsRef.attentionLoss < (runReading reads s ts).metricsRef.attentionLoss →
      ∃ u ∈ ts, (runReading reads s ts).metricsRef.lastSeen = u.now) := by
  induction ts using List.reverseRecOn with
  | nil => simp [runReading]
  | append_singleton pre t ih =>
    obtain ⟨i2, i3, i4⟩ := ih (fun u hu => hn u (by simp [hu]))
    have ht : handOf t = none := by simpa [noHand] using hn t (by simp)
    rw [runReading_concat, tickReading_noHand _ _ t ht]
    by_cases hd : reads (runReading reads s pre) = Status.detecting
    · rw [if_pos hd]
      by_cases hgt : t.now - (runReading reads s pre).metricsRef.lastSeen > 600
      · rw [if_pos hgt]
        refine ⟨?_, ?_, fun _ => ⟨t, by simp, rfl⟩⟩
        · show s.metricsRef.attentionLoss
            ≤ (runReading reads s pre).metricsRef.attentionLoss + 1
          omega
        · show s.metricsRef.lastSeen + 601 *
            ((((runReading reads s pre).metricsRef.attentionLoss + 1 : Nat) : Int)
              - s.metricsRef.attentionLoss) ≤ t.now
          push_cast
          omega
      · rw [if_neg hgt]
        refine ⟨i2, i3, fun h => ?_⟩
        obtain ⟨u, hu, e⟩ := i4 h
        exact ⟨u, by simp [hu], e⟩
    · rw [if_neg hd]
      refine ⟨i2, i3, fun h => ?_⟩
      obtain ⟨u, hu, e⟩ := i4 h
      exact ⟨u, by simp [hu], e⟩

/-- C8, on the code: with the status detecting after Start Test at time 0, an absence
of 1800 ms sampled every 33 ms (ticks without a hand at 33, 66, ..., 1815 ms) does not
raise `attentionLoss` by 3. -/
theorem absence_1800_not_three :
    (startTest 0 (mounted 0)).status = Status.detecting ∧
    (startTest 0 (mounted 0)).metricsRef.lastSeen = 0 ∧
    (startTest 0 (mounted 0)).metricsRef.attentionLoss = 0 ∧
    (absence33 55).all noHand = true ∧
    (absence33 55).map (fun t => t.now) = (List.range 55).map (fun i => 33 * ((i : Int) + 1)) ∧
    (runTicks (startTest 0 (mounted 0)) (absence33 55)).metricsRef.attentionLoss = 0 := by
  refine ⟨rfl, rfl, rfl, by decide, by decide, by decide⟩

/-- C8, as the code has it. Over any sequence of ticks without a hand that all lie
within 1800 ms of `lastSeen`, whatever status the callbacks read, `attentionLoss` grows by
at most 2. -/
theorem absence_within_1800_at_most_two (reads : State → Status) (s : State)
    (ts : List Tick) (hn : ∀ t ∈ ts, noHand t = true)
    (hwin : ∀ t ∈ ts, t.now ≤ s.metricsRef.lastSeen + 1800) :
    (runReading reads s ts).metricsRef.attentionLoss ≤ s.metricsRef.attentionLoss + 2 := by
  obtain ⟨i2, i3, i4⟩ := absent_run_invariant reads s ts hn
  by_contra hcon
  obtain ⟨u, hu, e⟩ := i4 (by omega)
  have := hwin u hu
  omega

/-- The bound applied to the program after Start Test and the ticks at 33, 66, ...,
1782 ms. -/
theorem absence_within_1800_at_most_two_witness :
    (runReading (fun _ => registeredStatus) (startTest 0 (mounted 0))
        (absence33 54)).metricsRef.attentionLoss
      ≤ (startTest 0 (mounted 0)).metricsRef.attentionLoss + 2 :=
  absence_within_1800_at_most_two (fun _ => registeredStatus) (startTest 0 (mounted 0))
    (absence33 54) (by decide) (by decide)

/-- The absence of 1800 ms processed by a callback that reads detecting: two loss
events, at 627 ms and at 1254 ms. -/
theorem absence_1800_when_reading_detecting :
    (runReading (fun _ => Status.detecting) (startTest 0 (mounted 0))
        (absence33 18)).metricsRef.attentionLoss = 0 ∧
    (runReading (fun _ => Status.detecting) (startTest 0 (mounted 0))
        (absence33 19)).metricsRef.attentionLoss = 1 ∧
    (runReading (fun _ => Status.detecting) (startTest 0 (mounted 0))
        (absence33 37)).metricsRef.attentionLoss = 1 ∧
    (runReading (fun _ => Status.detecting) (startTest 0 (mounted 0))
        (absence33 38)).metricsRef.attentionLoss = 2 ∧
    (runReading (fun _ => Status.detecting) (startTest 0 (mounted 0))
        (absence33 55)).metricsRef.attentionLoss = 2 := by
  refine ⟨by decide, by decide, by decide, by decide, by decide⟩

/-- C9. Along any run of ticks without a hand, whatever status the callbacks read (so
also while the status is detecting): if the tick `t` raises `attentionLoss` and the count
has then risen by `k` since the start of the run, the time of `t` is more than `600 * k`
ms after the `lastSeen` the run started with; and when the timestamps are non-decreasing,
a run that has raised the count by `k > 0` ends more than `600 * k` ms after that
`lastSeen`. -/
theorem loss_events_600_apart (reads : State → Status) (s : State)
    (pre : List Tick) (t : Tick) (hn : ∀ u ∈ pre ++ [t], noHand u = true) :
    ((runReading reads s (pre ++ [t])).metricsRef.attentionLoss
        = (runReading reads s pre).metricsRef.attentionLoss + 1 →
      s.metricsRef.lastSeen +
          600 * (((runReading reads s (pre ++ [t])).metricsRef.attentionLoss : Int)
            - s.metricsRef.attentionLoss)
        < t.now) ∧
    ((pre ++ [t]).Pairwise (fun a b => a.now ≤ b.now) →
      s.metricsRef.attentionLoss < (runReading reads s (pre ++ [t])).metricsRef.attentionLoss →
      s.metricsRef.lastSeen +
          600 * (((runReading reads s (pre ++ [t])).metricsRef.attentionLoss : Int)
            - s.metricsRef.attentionLoss)
        < t.now) := by
  have hpre : ∀ u ∈ pre, noHand u = true := fun u hu => hn u (by simp [hu])
  have ht : handOf t = none := by simpa [noHand] using hn t (by simp)
  obtain ⟨i2, i3, _⟩ := absent_run_invariant reads s pre hpre
  constructor
  · intro hrise
    rw [hrise]
    rw [runReading_concat, tickReading_noHand _ _ t ht] at hrise
    by_cases hd : reads (runReading reads s pre) = Status.detecting
    · rw [if_pos hd] at hrise
      by_cases hgt : t.now - (runReading reads s pre).metricsRef.lastSeen > 600
      · push_cast
        omega
      · rw [if_neg hgt] at hrise
        omega
    · rw [if_neg hd] at hrise
      omega
  · intro hsorted hpos
    obtain ⟨j2, j3, j4⟩ := absent_run_invariant reads s (pre ++ [t]) hn
    obtain ⟨u, hu, e⟩ := j4 hpos
    have hle : u.now ≤ t.now := by
      rcases List.mem_append.mp hu with h | h
      · exact (List.pairwise_append.mp hsorted).2.2 u h t (by simp)
      · rw [List.mem_singleton.mp h]
    omega

/-- The spacing rule applied to the ticks at 33, 66, ..., 627 ms after Start Test,
processed by a callback that reads detecting: the tick at 627 ms causes the first loss
event. -/
theorem loss_events_600_apart_witness :
    (startTest 0 (mounted 0)).metricsRef.lastSeen +
        600 * (((runReading (fun _ => Status.detecting) (startTest 0 (mounted 0))
            (absence33 18 ++ [noHandTick 627])).metricsRef.attentionLoss : Int)
          - (startTest 0 (mounted 0)).metricsRef.attentionLoss)
      < (noHandTick 627).now :=
  (loss_events_600_apart (fun _ => Status.detecting) (startTest 0 (mounted 0)) (absence33 18)
    (noHandTick 627) (by decide)).1 (by decide)

/-! ## Low-confidence frames -/

/-- The count of low-confidence frames after a tick with a hand, whatever the callback
reads. -/
theorem lowConfidence_step (c : Status) (s : State) (t : Tick) (h : Hand)
    (hh : handOf t = some h) :
    (tickReading c s t).metricsRef.lowConfidence =
      if confidence t.results < 0.6 then s.metricsRef.lowConfidence + 1
      else s.metricsRef.lowConfidence := by
  rw [tickReading_hand_metrics c s t h hh]
  split_ifs <;> rfl

/-- For a score other than 0 the count grows by one exactly when the score is below
0.6, whatever the hand, the status and the counter. -/
theorem lowConfidence_counts_nonzero_score (s : State) (now : Int) (h : Hand) (score : ℚ)
    (h0 : score ≠ 0) :
    (score < 0.6 →
      (tick s (scoredTick now h score)).metricsRef.lowConfidence
        = s.metricsRef.lowConfidence + 1) ∧
    (0.6 ≤ score →
      (tick s (scoredTick now h score)).metricsRef.lowConfidence
        = s.metricsRef.lowConfidence) := by
  have hc : confidence (scoredTick now h score).results = score := by
    simp [confidence, scoredTick, h0]
  unfold tick
  rw [lowConfidence_step _ s (scoredTick now h score) h rfl, hc]
  constructor
  · intro hlt
    rw [if_pos hlt]
  · intro hge
    rw [if_neg (not_lt.mpr hge)]

/-- C11, on the code: a hand frame whose handedness score is 0 is not counted as a
low-confidence frame, because `score || 1` replaces the score 0 by 1; a frame with score
0.5 is counted. -/
theorem zero_score_not_counted :
    (0 : ℚ) < 0.6 ∧
    confidence (scoredTick 33 twoHand 0).results = 1 ∧
    (tick (startTest 0 (mounted 0)) (scoredTick 33 twoHand 0)).metricsRef.lowConfidence = 0 ∧
    (tick (startTest 0 (mounted 0)) (scoredTick 33 flatHand 0)).metricsRef.lowConfidence = 0 ∧
    (tick (startTest 0 (mounted 0)) (scoredTick 33 twoHand 0.5)).metricsRef.lowConfidence
      = 1 := by
  with_unfolding_all decide

/-! ## Success is final -/

theorem run_success_stays (reads : State → Status)
    (hr : ∀ s, reads s = registeredStatus ∨ reads s = s.status)
    (ts : List Tick) (s : State) (hs : s.status = Status.success) :
    (runReading reads s ts).status = Status.success ∧ (runReading reads s ts).saved = s.saved := by
  induction ts using List.reverseRecOn with
  | nil => exact ⟨hs, rfl⟩
  | append_singleton pre t ih =>
    rw [runReading_concat]
    rcases tickReading_status_saved (reads (runReading reads s pre)) (runReading reads s pre) t
      with ⟨h1, h2⟩ | ⟨h1, _⟩
    · exact ⟨h1.trans ih.1, h2.trans ih.2⟩
    · rcases hr (runReading reads s pre) with h | h
      · rw [h] at h1
        exact absurd h1 (by decide)
      · rw [h, ih.1] at h1
        exact absurd h1 (by decide)

theorem run_detecting_or_success (reads : State → Status)
    (hr : ∀ s, reads s = registeredStatus ∨ reads s = s.status)
    (s : State) (hs : s.status = Status.detecting) (ts : List Tick) :
    ((runReading reads s ts).status = Status.detecting ∧
      (runReading reads s ts).saved = s.saved) ∨
    ((runReading reads s ts).status = Status.success ∧
      ∃ m, (runReading reads s ts).saved = s.saved ++ [m]) := by
  induction ts using List.reverseRecOn with
  | nil => exact Or.inl ⟨hs, rfl⟩
  | append_singleton pre t ih =>
    rw [runReading_concat]
    rcases ih with ⟨i1, i2⟩ | ⟨i1, m, i2⟩
    · rcases tickReading_status_saved (reads (runReading reads s pre))
        (runReading reads s pre) t with ⟨h1, h2⟩ | ⟨_, _, _, h3, m, h4⟩
      · exact Or.inl ⟨h1.trans i1, h2.trans i2⟩
      · exact Or.inr ⟨h3, m, by rw [h4, i2]⟩
    · rcases tickReading_status_saved (reads (runReading reads s pre))
        (runReading reads s pre) t with ⟨h1, h2⟩ | ⟨h1, _⟩
      · exact Or.inr ⟨h1.trans i1, m, h2.trans i2⟩
      · rcases hr (runReading reads s pre) with h | h
        · rw [h] at h1
          exact absurd h1 (by decide)
        · rw [h, i1] at h1
          exact absurd h1 (by decide)

theorem run_take_success_mono (reads : State → Status)
    (hr : ∀ s, reads s = registeredStatus ∨ reads s = s.status)
    (s : State) (ts : List Tick) (i j : Nat) (hij : i ≤ j)
    (hi : (runReading reads s (ts.take i)).status = Status.success) :
    (runReading reads s (ts.take j)).status = Status.success := by
  have e : ts.take j = ts.take i ++ (ts.take j).drop i := by
    have := List.take_append_drop i (ts.take j)
    rw [List.take_take, min_eq_left hij] at this
    exact this.symm
  rw [e, runReading_append]
  exact (run_success_stays reads hr _ _ hi).1

/-- C13. Once the status is success every later tick, whatever it carries, leaves the
status success and adds no metrics record, be it processed by the registered callback or
by a callback that reads the status last written; hence along any sequence of ticks
after `startTest`, processed by such callbacks, the status turns to success at no more
than one tick, and at most one metrics record is emitted. -/
theorem success_is_final :
    (∀ (c : Status) (s : State) (t : Tick), s.status = Status.success →
      (c = registeredStatus ∨ c = s.status) →
      (tickReading c s t).status = Status.success ∧ (tickReading c s t).saved = s.saved) ∧
    (∀ (reads : State → Status), (∀ s, reads s = registeredStatus ∨ reads s = s.status) →
      ∀ (now : Int) (s : State) (ts : List Tick) (i j : Nat),
      ((runReading reads (startTest now s) (ts.take i)).status ≠ Status.success ∧
        (runReading reads (startTest now s) (ts.take (i + 1))).status = Status.success) →
      ((runReading reads (startTest now s) (ts.take j)).status ≠ Status.success ∧
        (runReading reads (startTest now s) (ts.take (j + 1))).status = Status.success) →
      i = j) ∧
    (∀ (reads : State → Status), (∀ s, reads s = registeredStatus ∨ reads s = s.status) →
      ∀ (now : Int) (s : State) (ts : List Tick),
      (runReading reads (startTest now s) ts).saved = s.saved ∨
      ∃ m, (runReading reads (startTest now s) ts).saved = s.saved ++ [m]) := by
  refine ⟨fun c s t hs hc => ?_, fun reads hr now s ts i j hi hj => ?_,
    fun reads hr now s ts => ?_⟩
  · rcases tickReading_status_saved c s t with ⟨h1, h2⟩ | ⟨h1, _⟩
    · exact ⟨h1.trans hs, h2⟩
    · rcases hc with h | h
      · rw [h] at h1
        exact absurd h1 (by decide)
      · rw [h, hs] at h1
        exact absurd h1 (by decide)
  · rcases Nat.lt_trichotomy i j with h | h | h
    · exact absurd (run_take_success_mono reads hr _ ts (i + 1) j h hi.2) hj.1
    · exact h
    · exact absurd (run_take_success_mono reads hr _ ts (j + 1) i h hj.2) hi.1
  · rcases run_detecting_or_success reads hr (startTest now s) rfl ts with ⟨_, h⟩ | ⟨_, m, h⟩
    · exact Or.inl h
    · exact Or.inr ⟨m, h⟩

/-- In a state with status success and one saved record, a further positive frame, a
flat hand and a tick without a hand, processed by the registered callback, each leave the
status success and the saved records as they are; and in the program at most one record
is emitted along the eleven positive frames after Start Test. -/
theorem success_is_final_witness :
    ((tickReading registeredStatus
        { status := Status.success, stableCounter := 11,
          metricsRef := { startTime := some 0, lastSeen := 363, attentionLoss := 0,
                          lowConfidence := 0 },
          saved := [{ timeTaken := 363, isCorrect := true, attentionLost := 0,
                      sluggishness := 0 }],
          cameraStopped := true }
        (handTick 396 twoHand)).status = Status.success ∧
      (tickReading registeredStatus
        { status := Status.success, stableCounter := 11,
          metricsRef := { startTime := some 0, lastSeen := 363, attentionLoss := 0,
                          lowConfidence := 0 },
          saved := [{ timeTaken := 363, isCorrect := true, attentionLost := 0,
                      sluggishness := 0 }],
          cameraStopped := true }
        (handTick 396 twoHand)).saved
        = [{ timeTaken := 363, isCorrect := true, attentionLost := 0, sluggishness := 0 }]) ∧
    ((runReading (fun _ => registeredStatus) (startTest 0 (mounted 0)) elevenPositive).saved
        = (mounted 0).saved ∨
      ∃ m, (runReading (fun _ => registeredStatus) (startTest 0 (mounted 0))
          elevenPositive).saved = (mounted 0).saved ++ [m]) :=
  ⟨success_is_final.1 registeredStatus _ (handTick 396 twoHand) rfl (Or.inl rfl),
    success_is_final.2.2 (fun _ => registeredStatus) (fun _ => Or.inl rfl) 0 (mounted 0)
      elevenPositive⟩

/-! ## Hand frames with a wrong number of landmarks -/

/-- With at least 17 landmarks every array read of the debug overlay is defined. -/
theorem overlay_reads_defined (h : Hand) (hl : 16 < h.length) :
    (∃ b, isFingerExtended h[8]? h[6]? h[5]? = some b) ∧
    (∃ b, isFingerExtended h[12]? h[10]? h[9]? = some b) ∧
    (∃ b, isFingerFolded h[16]? h[14]? = some b) := by
  have e5 : h[5]? = some h[5] := List.getElem?_eq_getElem (by omega)
  have e6 : h[6]? = some h[6] := List.getElem?_eq_getElem (by omega)
  have e8 : h[8]? = some h[8] := List.getElem?_eq_getElem (by omega)
  have e9 : h[9]? = some h[9] := List.getElem?_eq_getElem (by omega)
  have e10 : h[10]? = some h[10] := List.getElem?_eq_getElem (by omega)
  have e12 : h[12]? = some h[12] := List.getElem?_eq_getElem (by omega)
  have e14 : h[14]? = some h[14] := List.getElem?_eq_getElem (by omega)
  have e16 : h[16]? = some h[16] := List.getElem?_eq_getElem (by omega)
  rw [e5, e6, e8, e9, e10, e12, e14, e16]
  exact ⟨⟨_, isFingerExtended_some _ _ _⟩, ⟨_, isFingerExtended_some _ _ _⟩,
    ⟨_, isFingerFolded_some _ _⟩⟩

/-- C18, on the code: a hand frame of 20 landmarks is not treated like a tick without a
hand. In the program, 100 ms after Start Test it moves `lastSeen` to 100 where a tick
without a hand leaves it at 0, and 700 ms after Start Test it moves `lastSeen` to 700
where a tick without a hand leaves it at 0. -/
theorem malformed_frame_unlike_absent_tick :
    shortHand.length = 20 ∧
    (startTest 0 (mounted 0)).status = Status.detecting ∧
    (tick (startTest 0 (mounted 0)) (handTick 100 shortHand)).metricsRef.lastSeen = 100 ∧
    (tick (startTest 0 (mounted 0)) (noHandTick 100)).metricsRef.lastSeen = 0 ∧
    (tick (startTest 0 (mounted 0)) (handTick 700 shortHand)).metricsRef.lastSeen = 700 ∧
    (tick (startTest 0 (mounted 0)) (noHandTick 700)).metricsRef.lastSeen = 0 := by
  refine ⟨by decide, rfl, ?_, ?_, ?_, ?_⟩ <;> with_unfolding_all decide

/-- C18, as the code has it. While the status is detecting, a tick with a hand frame
whose number of landmarks is not 21, whatever status the callback that processes it
reads, leaves `lastSeen` at the time of the tick, `attentionLoss` and the saved records
unchanged and the status detecting; if the frame has at least 17 landmarks the callback
returns and the counter is 0. -/
theorem malformed_frame_counts_as_seen (c : Status) (s : State) (t : Tick) (h : Hand)
    (hs : s.status = Status.detecting) (hh : handOf t = some h) (hl : h.length ≠ 21) :
    (tickReading c s t).metricsRef.lastSeen = t.now ∧
    (tickReading c s t).metricsRef.attentionLoss = s.metricsRef.attentionLoss ∧
    (tickReading c s t).status = Status.detecting ∧
    (tickReading c s t).saved = s.saved ∧
    (16 < h.length →
      ∃ s1, onResults c true t.now t.results s = Except.ok s1 ∧ s1.stableCounter = 0) := by
  have hg : isTwoGesture (some h) = some false := isTwoGesture_of_length_ne h hl
  have hnp : ¬ positive t = true := by
    intro hp
    obtain ⟨h0, hh0, hg0⟩ := (positive_iff t).mp hp
    rw [hh] at hh0
    simp only [Option.some.injEq] at hh0
    rw [← hh0, hg] at hg0
    exact absurd hg0 (by simp)
  refine ⟨?_, ?_, ?_, ?_, ?_⟩
  · rw [tickReading_hand_metrics c s t h hh]
    split_ifs <;> rfl
  · rw [tickReading_hand_metrics c s t h hh]
    split_ifs <;> rfl
  · rcases tickReading_status_saved c s t with ⟨h1, _⟩ | ⟨_, hp, _⟩
    · exact h1.trans hs
    · exact absurd hp hnp
  · rcases tickReading_status_saved c s t with ⟨_, h2⟩ | ⟨_, hp, _⟩
    · exact h2
    · exact absurd hp hnp
  · intro h17
    obtain ⟨rest, hm⟩ := handOf_eq_some t h hh
    obtain ⟨⟨b1, h1⟩, ⟨b2, h2⟩, ⟨b3, h3⟩⟩ := overlay_reads_defined h h17
    unfold onResults
    simp only [hm, Bool.true_eq_false, if_false, h1, h2, h3, hg]
    split_ifs <;> exact ⟨_, rfl, rfl⟩

/-- The theorem applied to the program and a frame of 20 landmarks 700 ms after Start
Test. -/
theorem malformed_frame_counts_as_seen_witness :
    (tickReading registeredStatus (startTest 0 (mounted 0))
        (handTick 700 shortHand)).metricsRef.lastSeen
      = (handTick 700 shortHand).now ∧
    (tickReading registeredStatus (startTest 0 (mounted 0))
        (handTick 700 shortHand)).metricsRef.attentionLoss
      = (startTest 0 (mounted 0)).metricsRef.attentionLoss ∧
    (tickReading registeredStatus (startTest 0 (mounted 0))
        (handTick 700 shortHand)).status = Status.detecting ∧
    (tickReading registeredStatus (startTest 0 (mounted 0)) (handTick 700 shortHand)).saved
      = (startTest 0 (mounted 0)).saved ∧
    (16 < shortHand.length →
      ∃ s1, onResults registeredStatus true (handTick 700 shortHand).now
          (handTick 700 shortHand).results (startTest 0 (mounted 0)) = Except.ok s1 ∧
        s1.stableCounter = 0) :=
  malformed_frame_counts_as_seen registeredStatus (startTest 0 (mounted 0))
    (handTick 700 shortHand) shortHand rfl rfl (by decide)

end GestureQuestionPage

/-! # The session state machine -/

namespace Assessment

/-- C5. For every playing session, in both implementations `completeQuestion` takes
exactly one of three transitions: if `qIndex < QUESTIONS_PER_LEVEL - 1`, `qIndex` grows by
1 while `level` and `state` are unchanged and no question set is requested; otherwise if
`level < TOTAL_LEVELS`, `level` grows by 1, the session stays playing and the question
set of `level + 1` is requested; otherwise `state` becomes completed with `level` and
`qIndex` unchanged, and for `level` and `qIndex` within their ranges this last case is
`level = TOTAL_LEVELS` and `qIndex = QUESTIONS_PER_LEVEL - 1`. -/
theorem completeQuestion_three_transitions (s : Session)
    (hp : s.state = SessionState.playing) (sessionId : String) (outcome : FetchOutcome)
    (shuffle : List Question → List Question) (timestamp : String) (qData metrics : JsObj) :
    (s.qIndex < QUESTIONS_PER_LEVEL - 1 →
      ((Pages.completeQuestion sessionId outcome shuffle qData metrics s).1.qIndex = s.qIndex + 1 ∧
        (Pages.completeQuestion sessionId outcome shuffle qData metrics s).1.level = s.level ∧
        (Pages.completeQuestion sessionId outcome shuffle qData metrics s).1.state = s.state ∧
        ∀ l i a, Effect.levelQuestions l i a ∉
          (Pages.completeQuestion sessionId outcome shuffle qData metrics s).2) ∧
      ((Components.completeQuestion outcome timestamp qData metrics s).1.qIndex
          = s.qIndex + 1 ∧
        (Components.completeQuestion outcome timestamp qData metrics s).1.level = s.level ∧
        (Components.completeQuestion outcome timestamp qData metrics s).1.state = s.state ∧
        ∀ l i a, Effect.levelQuestions l i a ∉
          (Components.completeQuestion outcome timestamp qData metrics s).2)) ∧
    (¬ s.qIndex < QUESTIONS_PER_LEVEL - 1 → s.level < TOTAL_LEVELS →
      ((Pages.completeQuestion sessionId outcome shuffle qData metrics s).1.level = s.level + 1 ∧
        (Pages.completeQuestion sessionId outcome shuffle qData metrics s).1.state
          = SessionState.playing ∧
        ∃ i a, Effect.levelQuestions (s.level + 1) i a ∈
          (Pages.completeQuestion sessionId outcome shuffle qData metrics s).2) ∧
      ((Components.completeQuestion outcome timestamp qData metrics s).1.level
          = s.level + 1 ∧
        (Components.completeQuestion outcome timestamp qData metrics s).1.state
          = SessionState.playing ∧
        ∃ i a, Effect.levelQuestions (s.level + 1) i a ∈
          (Components.completeQuestion outcome timestamp qData metrics s).2)) ∧
    (¬ s.qIndex < QUESTIONS_PER_LEVEL - 1 → ¬ s.level < TOTAL_LEVELS →
      ((Pages.completeQuestion sessionId outcome shuffle qData metrics s).1.state
          = SessionState.completed ∧
        (Pages.completeQuestion sessionId outcome shuffle qData metrics s).1.level = s.level ∧
        (Pages.completeQuestion sessionId outcome shuffle qData metrics s).1.qIndex = s.qIndex) ∧
      ((Components.completeQuestion outcome timestamp qData metrics s).1.state
          = SessionState.completed ∧
        (Components.completeQuestion outcome timestamp qData metrics s).1.level = s.level ∧
        (Components.completeQuestion outcome timestamp qData metrics s).1.qIndex
          = s.qIndex) ∧
      (s.level ≤ TOTAL_LEVELS → s.qIndex ≤ QUESTIONS_PER_LEVEL - 1 →
        s.level = TOTAL_LEVELS ∧ s.qIndex = QUESTIONS_PER_LEVEL - 1)) := by
  refine ⟨fun h1 => ?_, fun h1 h2 => ?_, fun h1 h2 => ?_⟩
  · simp [Pages.completeQuestion, Components.completeQuestion, h1]
  · refine ⟨⟨?_, ?_, ?_⟩, ⟨?_, ?_, ?_⟩⟩
    · cases outcome <;> simp [Pages.completeQuestion, Pages.fetchQuestions, h1, h2]
    · cases outcome <;> simp [Pages.completeQuestion, Pages.fetchQuestions, h1, h2, hp]
    · exact ⟨sessionId, 8, by simp [Pages.completeQuestion, h1, h2]⟩
    · cases outcome <;> simp [Components.completeQuestion, Components.fetchQuestions, h1, h2]
    · cases outcome <;>
        simp [Components.completeQuestion, Components.fetchQuestions, h1, h2, hp]
    · exact ⟨s.sessionId,
        (match s.age with
         | some a => if a = 0 then 8 else a
         | none => 8), by simp [Components.completeQuestion, h1, h2]⟩
  · refine ⟨?_, ?_, fun h3 h4 => ⟨by omega, by omega⟩⟩
    · simp [Pages.completeQuestion, h1, h2]
    · simp [Components.completeQuestion, Components.completeGame, h1, h2]

/-- The three transitions at the last question of the last level: both implementations
complete the session. -/
theorem completeQuestion_three_transitions_witness :
    ((Pages.completeQuestion "session_0" FetchOutcome.failed id [] []
          { Components.started with level := 10, qIndex := 3 }).1.state
        = SessionState.completed ∧
      (Pages.completeQuestion "session_0" FetchOutcome.failed id [] []
          { Components.started with level := 10, qIndex := 3 }).1.level = 10 ∧
      (Pages.completeQuestion "session_0" FetchOutcome.failed id [] []
          { Components.started with level := 10, qIndex := 3 }).1.qIndex = 3) ∧
    ((Components.completeQuestion FetchOutcome.failed "t" [] []
          { Components.started with level := 10, qIndex := 3 }).1.state
        = SessionState.completed ∧
      (Components.completeQuestion FetchOutcome.failed "t" [] []
          { Components.started with level := 10, qIndex := 3 }).1.level = 10 ∧
      (Components.completeQuestion FetchOutcome.failed "t" [] []
          { Components.started with level := 10, qIndex := 3 }).1.qIndex = 3) ∧
    ((10 : Nat) ≤ TOTAL_LEVELS → (3 : Nat) ≤ QUESTIONS_PER_LEVEL - 1 →
      (10 : Nat) = TOTAL_LEVELS ∧ (3 : Nat) = QUESTIONS_PER_LEVEL - 1) :=
  (completeQuestion_three_transitions { Components.started with level := 10, qIndex := 3 }
    rfl "session_0" FetchOutcome.failed id "t" [] []).2.2 (by decide) (by decide)

/-- C6, on the code of `src/src/components/assesmentPage.jsx`: when the backend
delivers level 1 and every later question fetch fails, the session started from the
initial state is completed after 13 answers, with 13 results instead of 40. -/
theorem components_backend_lost_thirteen_results :
    (Components.initial "session_0").level = 1 ∧
    (Components.initial "session_0").qIndex = 0 ∧
    (Components.initial "session_0").results = [] ∧
    (Components.run Components.started Components.backendLostAfterLevelOne).map
        (fun s => (s.state, s.level, s.results.length))
      = some (SessionState.completed, 10, 13) ∧
    TOTAL_LEVELS * QUESTIONS_PER_LEVEL = 40 := by
  decide

/-- C7, on the code of `src/src/components/assesmentPage.jsx`: recording the last
question of level 1 with the question fetch for level 2 failing installs the fallback
questions of level 2 and leaves the question index at 3; with a successful fetch the same
step gives index 0, and so does the other implementation on a failing fetch. -/
theorem components_fallback_keeps_question_index :
    (Components.run Components.started Components.threeAnswers).map
        (fun s => (s.state, s.level, s.qIndex))
      = some (SessionState.playing, 1, 3) ∧
    (Components.run Components.started
        (Components.threeAnswers ++ [Components.fourthAnswer])).map
        (fun s => (s.level, s.qIndex, s.questions))
      = some (2, 3, Components.generateDemoQuestions 2) ∧
    (Components.run Components.started
        (Components.threeAnswers ++
          [{ Components.fourthAnswer with
              outcome := FetchOutcome.ok [Components.backendMcq] }])).map
        (fun s => (s.level, s.qIndex, s.questions))
      = some (2, 0, [Components.backendMcq]) ∧
    (Pages.run (Pages.mount "session_0" (FetchOutcome.ok (List.replicate 4 Components.backendMcq)) id)
        (List.replicate 4
          { action := Action.submitOption 1 1000, sessionId := "session_1",
            outcome := FetchOutcome.failed, shuffle := id })).map
        (fun s => (s.level, s.qIndex, s.questions))
      = some (2, 0, Pages.generateDemoQuestions 2) := by
  decide

/-! ## The count of results in `src/src/pages/Students/assesmentPage.jsx` -/

theorem pages_completeQuestion_counted (s : Session) (h : Counted s)
    (hp : s.state = SessionState.playing) (sessionId : String) (outcome : FetchOutcome)
    (ho : outcome ≠ FetchOutcome.okNoQuestions)
    (shuffle : List Question → List Question) (qData metrics : JsObj) :
    Counted (Pages.completeQuestion sessionId outcome shuffle qData metrics s).1 := by
  rcases h with ⟨_, h1, h2, h3, h4⟩ | ⟨hc, _⟩
  · simp only [TOTAL_LEVELS, QUESTIONS_PER_LEVEL] at h2 h3 h4
    by_cases c1 : s.qIndex < QUESTIONS_PER_LEVEL - 1
    · left
      simp only [QUESTIONS_PER_LEVEL] at c1
      simp [Pages.completeQuestion, QUESTIONS_PER_LEVEL, TOTAL_LEVELS, c1, hp]
      omega
    · by_cases c2 : s.level < TOTAL_LEVELS
      · left
        simp only [QUESTIONS_PER_LEVEL] at c1
        simp only [TOTAL_LEVELS] at c2
        cases outcome with
        | okNoQuestions => exact absurd rfl ho
        | ok qs =>
          simp [Pages.completeQuestion, Pages.fetchQuestions, QUESTIONS_PER_LEVEL,
            TOTAL_LEVELS, c1, c2, hp]
          omega
        | failed =>
          simp [Pages.completeQuestion, Pages.fetchQuestions, QUESTIONS_PER_LEVEL,
            TOTAL_LEVELS, c1, c2, hp]
          omega
      · right
        simp only [QUESTIONS_PER_LEVEL] at c1
        simp only [TOTAL_LEVELS] at c2
        simp [Pages.completeQuestion, QUESTIONS_PER_LEVEL, TOTAL_LEVELS, c1, c2]
        omega
  · rw [hp] at hc
    exact absurd hc (by decide)

theorem pages_step_counted (s s1 : Session) (a : Pages.Answer) (h : Counted s)
    (ho : a.outcome ≠ FetchOutcome.okNoQuestions)
    (hs : Pages.step s a = some s1) : Counted s1 := by
  unfold Pages.step at hs
  split_ifs at hs with hg
  · split at hs
    · split at hs
      · simp only [Option.some.injEq] at hs
        rw [← hs]
        exact pages_completeQuestion_counted s h hg.1 _ _ ho _ _ _
      · exact absurd hs (by simp)
    · exact absurd hs (by simp)

theorem pages_run_counted (answers : List Pages.Answer)
    (ho : ∀ a ∈ answers, a.outcome ≠ FetchOutcome.okNoQuestions) (s s1 : Session)
    (h : Counted s) (hr : Pages.run s answers = some s1) : Counted s1 := by
  induction answers generalizing s with
  | nil =>
    simp only [Pages.run, Option.some.injEq] at hr
    rw [← hr]
    exact h
  | cons a rest ih =>
    simp only [Pages.run] at hr
    cases hst : Pages.step s a with
    | none => simp [hst] at hr
    | some s2 =>
      rw [hst] at hr
      exact ih (fun b hb => ho b (by simp [hb])) s2
        (pages_step_counted s s2 a h (ho a (by simp)) hst) hr

/-- In `src/src/pages/Students/assesmentPage.jsx` every run from the mounted session to
the completed state has recorded exactly 40 results, whenever each question fetch
started along the way ends with a `questions` array or fails. -/
theorem pages_completed_has_forty (sessionId : String) (outcome : FetchOutcome)
    (shuffle : List Question → List Question) (answers : List Pages.Answer) (s1 : Session)
    (ho : ∀ a ∈ answers, a.outcome ≠ FetchOutcome.okNoQuestions)
    (hr : Pages.run (Pages.mount sessionId outcome shuffle) answers = some s1)
    (hc : s1.state = SessionState.completed) :
    s1.results.length = TOTAL_LEVELS * QUESTIONS_PER_LEVEL := by
  have h0 : Counted (Pages.mount sessionId outcome shuffle) := by
    left
    cases outcome <;>
      simp [Pages.mount, Pages.fetchQuestions, Pages.initial, TOTAL_LEVELS, QUESTIONS_PER_LEVEL]
  rcases pages_run_counted answers ho _ s1 h0 hr with ⟨hp, _⟩ | ⟨_, h⟩
  · rw [hp] at hc
    exact absurd hc (by decide)
  · exact h



/-! ## The results list -/

theorem pages_results_appended (s : Session) (sessionId : String) (outcome : FetchOutcome)
    (shuffle : List Question → List Question) (qData metrics : JsObj) :
    (Pages.completeQuestion sessionId outcome shuffle qData metrics s).1.results =
      s.results ++
        [spread (spread [("level", JsVal.num s.level), ("qIndex", JsVal.num s.qIndex)] qData)
          metrics] := by
  unfold Pages.completeQuestion
  by_cases c1 : s.qIndex < QUESTIONS_PER_LEVEL - 1
  · simp [c1]
  · by_cases c2 : s.level < TOTAL_LEVELS
    · cases outcome <;> simp [c1, c2, Pages.fetchQuestions]
    · simp [c1, c2]

theorem components_results_appended (s : Session) (outcome : FetchOutcome)
    (timestamp : String) (qData metrics : JsObj) :
    (Components.completeQuestion outcome timestamp qData metrics s).1.results =
      s.results ++
        [setProp
          (spread (spread [("level", JsVal.num s.level), ("qIndex", JsVal.num s.qIndex)] qData)
            metrics)
          "timestamp" (JsVal.str timestamp)] := by
  unfold Components.completeQuestion
  by_cases c1 : s.qIndex < QUESTIONS_PER_LEVEL - 1
  · simp [c1]
  · by_cases c2 : s.level < TOTAL_LEVELS
    · cases outcome <;> simp [c1, c2, Components.fetchQuestions]
    · simp [c1, c2, Components.completeGame]

theorem getProp_setProp_of_ne (o : JsObj) (k k1 : String) (v : JsVal) (hne : k1 ≠ k) :
    getProp (setProp o k1 v) k = getProp o k := by
  induction o with
  | nil => simp [setProp, getProp, hne]
  | cons a rest ih =>
    obtain ⟨k0, v0⟩ := a
    unfold setProp
    by_cases h0 : k0 = k1
    · subst h0
      simp [getProp, hne]
    · simp only [h0, if_false]
      unfold getProp at ih ⊢
      by_cases hk : k0 = k
      · simp [List.find?, hk]
      · have hb : (k0 == k) = false := by simpa using hk
        simp only [List.find?, hb]
        exact ih

theorem getProp_spread_of_ne (ext o : JsObj) (k : String) (hne : ∀ kv ∈ ext, kv.1 ≠ k) :
    getProp (spread o ext) k = getProp o k := by
  induction ext generalizing o with
  | nil => rfl
  | cons a rest ih =>
    have h1 : a.1 ≠ k := hne a (by simp)
    have h2 : ∀ kv ∈ rest, kv.1 ≠ k := fun kv hkv => hne kv (by simp [hkv])
    have := ih (setProp o a.1 a.2) h2
    unfold spread at this ⊢
    rw [List.foldl_cons, this]
    exact getProp_setProp_of_ne o k a.1 a.2 h1

/-- The payloads of the processors never carry a `level` or `qIndex` property. -/
theorem pages_payload_keys (q : Question) (action : Action) (qData metrics : JsObj)
    (hq : Pages.QuestionRenderer q action = some (qData, metrics)) :
    (∀ kv ∈ qData, kv.1 ≠ "level" ∧ kv.1 ≠ "qIndex") ∧
    (∀ kv ∈ metrics, kv.1 ≠ "level" ∧ kv.1 ≠ "qIndex") := by
  unfold Pages.QuestionRenderer at hq
  split_ifs at hq <;> cases action <;> simp at hq
  all_goals
    first
      | (obtain ⟨_, h1, h2⟩ := hq
         subst h1 h2
         simp)
      | (obtain ⟨h1, h2⟩ := hq
         subst h1 h2
         simp)

theorem components_payload_keys (q : Question) (action : Action) (qData metrics : JsObj)
    (hq : Components.QuestionRenderer q action = some (qData, metrics)) :
    (∀ kv ∈ qData, kv.1 ≠ "level" ∧ kv.1 ≠ "qIndex") ∧
    (∀ kv ∈ metrics, kv.1 ≠ "level" ∧ kv.1 ≠ "qIndex") := by
  unfold Components.QuestionRenderer at hq
  split_ifs at hq <;> cases action <;> simp at hq
  all_goals
    first
      | (obtain ⟨_, h1, h2⟩ := hq
         subst h1 h2
         simp)
      | (obtain ⟨h1, h2⟩ := hq
         subst h1 h2
         simp)

/-- C15. In both implementations, for every session and every payload that the
processor of a question produces for an action, `completeQuestion` yields the previous
results list with exactly one record appended at the end, and that record carries the
`level` and `qIndex` the session had when the question was answered. -/
theorem completeQuestion_appends_one_record (s : Session) (sessionId : String)
    (outcome : FetchOutcome)
    (shuffle : List Question → List Question) (timestamp : String) (q : Question)
    (action : Action) (qData metrics : JsObj) :
    (Pages.QuestionRenderer q action = some (qData, metrics) →
      ∃ record, (Pages.completeQuestion sessionId outcome shuffle qData metrics s).1.results
          = s.results ++ [record] ∧
        getProp record "level" = some (JsVal.num s.level) ∧
        getProp record "qIndex" = some (JsVal.num s.qIndex)) ∧
    (Components.QuestionRenderer q action = some (qData, metrics) →
      ∃ record, (Components.completeQuestion outcome timestamp qData metrics s).1.results
          = s.results ++ [record] ∧
        getProp record "level" = some (JsVal.num s.level) ∧
        getProp record "qIndex" = some (JsVal.num s.qIndex)) := by
  constructor
  · intro hq
    obtain ⟨hd, hm⟩ := pages_payload_keys q action qData metrics hq
    refine ⟨_, pages_results_appended s sessionId outcome shuffle qData metrics, ?_, ?_⟩
    · rw [getProp_spread_of_ne _ _ _ (fun kv h => (hm kv h).1),
        getProp_spread_of_ne _ _ _ (fun kv h => (hd kv h).1)]
      rfl
    · rw [getProp_spread_of_ne _ _ _ (fun kv h => (hm kv h).2),
        getProp_spread_of_ne _ _ _ (fun kv h => (hd kv h).2)]
      simp [getProp]
  · intro hq
    obtain ⟨hd, hm⟩ := components_payload_keys q action qData metrics hq
    refine ⟨_, components_results_appended s outcome timestamp qData metrics, ?_, ?_⟩
    · rw [getProp_setProp_of_ne _ _ _ _ (by decide),
        getProp_spread_of_ne _ _ _ (fun kv h => (hm kv h).1),
        getProp_spread_of_ne _ _ _ (fun kv h => (hd kv h).1)]
      rfl
    · rw [getProp_setProp_of_ne _ _ _ _ (by decide),
        getProp_spread_of_ne _ _ _ (fun kv h => (hm kv h).2),
        getProp_spread_of_ne _ _ _ (fun kv h => (hd kv h).2)]
      simp [getProp]

/-- The theorem applied to the first answer of the started session: option 1 of the
backend's multiple-choice question. -/
theorem completeQuestion_appends_one_record_witness :
    ∃ record, (Components.completeQuestion FetchOutcome.failed "t"
          [("selected", JsVal.num 1), ("correct", JsVal.bool true)]
          [("time_taken", JsVal.num 1000)] Components.started).1.results
        = Components.started.results ++ [record] ∧
      getProp record "level" = some (JsVal.num Components.started.level) ∧
      getProp record "qIndex" = some (JsVal.num Components.started.qIndex) :=
  (completeQuestion_appends_one_record Components.started "session_0" FetchOutcome.failed
    id "t"
    Components.backendMcq (Action.submitOption 1 1000)
    [("selected", JsVal.num 1), ("correct", JsVal.bool true)]
    [("time_taken", JsVal.num 1000)]).2 (by decide)

/-! ## The analysis submission -/

/-- At the last question of the last level `completeQuestion` of
`src/src/components/assesmentPage.jsx` sends the record of the question and then the
analysis request, whose `results` are the list from before the record was appended. -/
theorem components_final_requests (s : Session) (outcome : FetchOutcome)
    (timestamp : String) (qData metrics : JsObj)
    (h1 : ¬ s.qIndex < QUESTIONS_PER_LEVEL - 1) (h2 : ¬ s.level < TOTAL_LEVELS) :
    ∃ record,
      (Components.completeQuestion outcome timestamp qData metrics s).1.results
        = s.results ++ [record] ∧
      (Components.completeQuestion outcome timestamp qData metrics s).2
        = [Effect.response (spread [("session_id", JsVal.str s.sessionId)] record),
           Effect.analysis s.sessionId s.results] := by
  refine ⟨_, components_results_appended s outcome timestamp qData metrics, ?_⟩
  simp [Components.completeQuestion, Components.completeGame, h1, h2]

/-- C14, on the code of `src/src/components/assesmentPage.jsx`: after 39 answers the
session is at level 10, question index 3, with 39 results; recording the final answer
completes the session with 40 results, while the analysis request carries the 39 earlier
results without the record of the final question. -/
theorem analysis_omits_final_record :
    (Components.run Components.started Components.first39).map
        (fun s => (s.level, s.qIndex, s.results.length)) = some (10, 3, 39) ∧
    (Components.run Components.started (Components.first39 ++ [Components.onlineAnswer])).map
        (fun s => (s.state, s.results.length)) = some (SessionState.completed, 40) ∧
    Components.QuestionRenderer Components.backendMcq (Action.submitOption 1 1000)
      = some ([("selected", JsVal.num 1), ("correct", JsVal.bool true)],
              [("time_taken", JsVal.num 1000)]) ∧
    (Components.run Components.started Components.first39).map
        (fun s =>
          (Components.completeQuestion Components.onlineAnswer.outcome "t"
            [("selected", JsVal.num 1), ("correct", JsVal.bool true)]
            [("time_taken", JsVal.num 1000)] s).2.map
            (fun e =>
              match e with
              | Effect.analysis _ results => some (results.length)
              | _ => none))
      = some [none, some 39] := by
  decide

/-! ## Ranges of level and question index -/

theorem pages_completeQuestion_range (s : Session) (sessionId : String)
    (outcome : FetchOutcome)
    (shuffle : List Question → List Question) (qData metrics : JsObj)
    (h : 1 ≤ s.level ∧ s.level ≤ TOTAL_LEVELS ∧ s.qIndex ≤ QUESTIONS_PER_LEVEL - 1) :
    1 ≤ (Pages.completeQuestion sessionId outcome shuffle qData metrics s).1.level ∧
    (Pages.completeQuestion sessionId outcome shuffle qData metrics s).1.level ≤ TOTAL_LEVELS ∧
    (Pages.completeQuestion sessionId outcome shuffle qData metrics s).1.qIndex
      ≤ QUESTIONS_PER_LEVEL - 1 := by
  obtain ⟨h1, h2, h3⟩ := h
  unfold Pages.completeQuestion
  by_cases c1 : s.qIndex < QUESTIONS_PER_LEVEL - 1
  · simp only [c1, if_true]
    exact ⟨h1, h2, c1⟩
  · by_cases c2 : s.level < TOTAL_LEVELS
    · cases outcome with
      | ok qs =>
        simp only [c1, c2, if_true, if_false, Pages.fetchQuestions]
        exact ⟨by omega, c2, Nat.zero_le _⟩
      | failed =>
        simp only [c1, c2, if_true, if_false, Pages.fetchQuestions]
        exact ⟨by omega, c2, Nat.zero_le _⟩
      | okNoQuestions =>
        simp only [c1, c2, if_true, if_false, Pages.fetchQuestions]
        exact ⟨by omega, c2, h3⟩
    · simp only [c1, c2, if_false]
      exact ⟨h1, h2, h3⟩

theorem components_completeQuestion_range (s : Session) (outcome : FetchOutcome)
    (timestamp : String) (qData metrics : JsObj)
    (h : 1 ≤ s.level ∧ s.level ≤ TOTAL_LEVELS ∧ s.qIndex ≤ QUESTIONS_PER_LEVEL - 1) :
    1 ≤ (Components.completeQuestion outcome timestamp qData metrics s).1.level ∧
    (Components.completeQuestion outcome timestamp qData metrics s).1.level ≤ TOTAL_LEVELS ∧
    (Components.completeQuestion outcome timestamp qData metrics s).1.qIndex
      ≤ QUESTIONS_PER_LEVEL - 1 := by
  obtain ⟨h1, h2, h3⟩ := h
  unfold Components.completeQuestion
  by_cases c1 : s.qIndex < QUESTIONS_PER_LEVEL - 1
  · simp only [c1, if_true]
    exact ⟨h1, h2, c1⟩
  · by_cases c2 : s.level < TOTAL_LEVELS
    · cases outcome with
      | ok qs =>
        simp only [c1, c2, if_true, if_false, Components.fetchQuestions]
        exact ⟨by omega, c2, Nat.zero_le _⟩
      | failed =>
        simp only [c1, c2, if_true, if_false, Components.fetchQuestions]
        exact ⟨by omega, c2, h3⟩
      | okNoQuestions =>
        simp only [c1, c2, if_true, if_false, Components.fetchQuestions]
        exact ⟨by omega, c2, Nat.zero_le _⟩
    · simp only [c1, c2, if_false, Components.completeGame]
      exact ⟨h1, h2, h3⟩

theorem pages_completeAll_range (cs : List Pages.Completion) (s : Session)
    (h : 1 ≤ s.level ∧ s.level ≤ TOTAL_LEVELS ∧ s.qIndex ≤ QUESTIONS_PER_LEVEL - 1) :
    1 ≤ (Pages.completeAll s cs).level ∧ (Pages.completeAll s cs).level ≤ TOTAL_LEVELS ∧
    (Pages.completeAll s cs).qIndex ≤ QUESTIONS_PER_LEVEL - 1 := by
  induction cs generalizing s with
  | nil => exact h
  | cons c rest ih =>
    exact ih _
      (pages_completeQuestion_range s c.sessionId c.outcome c.shuffle c.qData c.metrics h)

theorem components_completeAll_range (cs : List Components.Completion) (s : Session)
    (h : 1 ≤ s.level ∧ s.level ≤ TOTAL_LEVELS ∧ s.qIndex ≤ QUESTIONS_PER_LEVEL - 1) :
    1 ≤ (Components.completeAll s cs).level ∧
    (Components.completeAll s cs).level ≤ TOTAL_LEVELS ∧
    (Components.completeAll s cs).qIndex ≤ QUESTIONS_PER_LEVEL - 1 := by
  induction cs generalizing s with
  | nil => exact h
  | cons c rest ih =>
    exact ih _ (components_completeQuestion_range s c.outcome c.timestamp c.qData c.metrics h)

/-- C16. In both implementations, in every state reached from the initial session by
the first question fetch (with either outcome) and any sequence of `completeQuestion`
calls (with any payloads and any fetch outcomes), `level` lies in 1..TOTAL_LEVELS and
`qIndex` lies in 0..QUESTIONS_PER_LEVEL-1; the same holds when the calls start from the
initial state itself. -/
theorem level_and_index_in_range :
    (∀ (sessionId : String) (outcome : FetchOutcome)
        (shuffle : List Question → List Question) (cs : List Pages.Completion),
      1 ≤ (Pages.completeAll (Pages.mount sessionId outcome shuffle) cs).level ∧
      (Pages.completeAll (Pages.mount sessionId outcome shuffle) cs).level ≤ TOTAL_LEVELS ∧
      (Pages.completeAll (Pages.mount sessionId outcome shuffle) cs).qIndex
        ≤ QUESTIONS_PER_LEVEL - 1) ∧
    (∀ (sessionId : String) (cs : List Pages.Completion),
      1 ≤ (Pages.completeAll (Pages.initial sessionId) cs).level ∧
      (Pages.completeAll (Pages.initial sessionId) cs).level ≤ TOTAL_LEVELS ∧
      (Pages.completeAll (Pages.initial sessionId) cs).qIndex ≤ QUESTIONS_PER_LEVEL - 1) ∧
    (∀ (sessionId : String) (age : Nat) (outcome : FetchOutcome)
        (cs : List Components.Completion),
      1 ≤ (Components.completeAll
            (Components.startGame age outcome (Components.initial sessionId)) cs).level ∧
      (Components.completeAll
            (Components.startGame age outcome (Components.initial sessionId)) cs).level
        ≤ TOTAL_LEVELS ∧
      (Components.completeAll
            (Components.startGame age outcome (Components.initial sessionId)) cs).qIndex
        ≤ QUESTIONS_PER_LEVEL - 1) ∧
    (∀ (sessionId : String) (cs : List Components.Completion),
      1 ≤ (Components.completeAll (Components.initial sessionId) cs).level ∧
      (Components.completeAll (Components.initial sessionId) cs).level ≤ TOTAL_LEVELS ∧
      (Components.completeAll (Components.initial sessionId) cs).qIndex
        ≤ QUESTIONS_PER_LEVEL - 1) := by
  refine ⟨fun sid o sh cs => pages_completeAll_range cs _ ?_,
    fun sid cs => pages_completeAll_range cs _ ?_,
    fun sid age o cs => components_completeAll_range cs _ ?_,
    fun sid cs => components_completeAll_range cs _ ?_⟩
  · cases o <;> simp [Pages.mount, Pages.fetchQuestions, Pages.initial, TOTAL_LEVELS]
  · simp [Pages.initial, TOTAL_LEVELS]
  · cases o <;>
      simp [Components.startGame, Components.fetchQuestions, Components.initial, TOTAL_LEVELS]
  · simp [Components.initial, TOTAL_LEVELS]

/-! ## Multiple-choice answers -/

/-- The payload of the multiple-choice processor, the same in both files. -/
theorem mcq_payload (q : Question) (i : Nat) (t : Int) (hq : q.type = "mcq")
    (hi : i < q.options.length) :
    Pages.QuestionRenderer q (Action.submitOption i t)
      = some ([("selected", JsVal.num i),
               ("correct", JsVal.bool (decide (some i = q.correct_answer)))],
              [("time_taken", JsVal.num t)]) ∧
    Components.QuestionRenderer q (Action.submitOption i t)
      = some ([("selected", JsVal.num i),
               ("correct", JsVal.bool (decide (some i = q.correct_answer)))],
              [("time_taken", JsVal.num t)]) := by
  simp [Pages.QuestionRenderer, Components.QuestionRenderer, hq, hi]

/-- C17. For every multiple-choice question and every option index `i` it offers, in
both implementations the record appended for the submitted answer has `correct` true
exactly when `i` is the question's `correct_answer`; the level, question index, state
and installed questions after `completeQuestion` do not depend on the payload; and for the
level-1 question with options 1, 2, 3, 4 and `correct_answer` 1, selecting index 1 records
`correct = true`, selecting index 0 records `correct = false`, and either way the question
index goes from 0 to 1. -/
theorem mcq_flag_and_progression :
    (∀ (q : Question) (i : Nat) (t : Int) (s : Session) (sessionId : String)
        (outcome : FetchOutcome) (shuffle : List Question → List Question)
        (timestamp : String),
      q.type = "mcq" → i < q.options.length →
      ∃ qData metrics flag,
        Pages.QuestionRenderer q (Action.submitOption i t) = some (qData, metrics) ∧
        Components.QuestionRenderer q (Action.submitOption i t) = some (qData, metrics) ∧
        (flag = true ↔ some i = q.correct_answer) ∧
        (∃ record, (Pages.completeQuestion sessionId outcome shuffle qData metrics s).1.results
            = s.results ++ [record] ∧ getProp record "correct" = some (JsVal.bool flag)) ∧
        (∃ record, (Components.completeQuestion outcome timestamp qData metrics s).1.results
            = s.results ++ [record] ∧ getProp record "correct" = some (JsVal.bool flag))) ∧
    (∀ (s : Session) (sessionId : String) (outcome : FetchOutcome)
        (shuffle : List Question → List Question)
        (timestamp : String) (qData metrics qData1 metrics1 : JsObj),
      ((Pages.completeQuestion sessionId outcome shuffle qData metrics s).1.level
          = (Pages.completeQuestion sessionId outcome shuffle qData1 metrics1 s).1.level ∧
        (Pages.completeQuestion sessionId outcome shuffle qData metrics s).1.qIndex
          = (Pages.completeQuestion sessionId outcome shuffle qData1 metrics1 s).1.qIndex ∧
        (Pages.completeQuestion sessionId outcome shuffle qData metrics s).1.state
          = (Pages.completeQuestion sessionId outcome shuffle qData1 metrics1 s).1.state ∧
        (Pages.completeQuestion sessionId outcome shuffle qData metrics s).1.questions
          = (Pages.completeQuestion sessionId outcome shuffle qData1 metrics1 s).1.questions) ∧
      ((Components.completeQuestion outcome timestamp qData metrics s).1.level
          = (Components.completeQuestion outcome timestamp qData1 metrics1 s).1.level ∧
        (Components.completeQuestion outcome timestamp qData metrics s).1.qIndex
          = (Components.completeQuestion outcome timestamp qData1 metrics1 s).1.qIndex ∧
        (Components.completeQuestion outcome timestamp qData metrics s).1.state
          = (Components.completeQuestion outcome timestamp qData1 metrics1 s).1.state ∧
        (Components.completeQuestion outcome timestamp qData metrics s).1.questions
          = (Components.completeQuestion outcome timestamp qData1 metrics1 s).1.questions)) ∧
    (Components.started.level = 1 ∧ Components.started.qIndex = 0 ∧
      Components.started.questions[0]? = some Components.backendMcq ∧
      Components.backendMcq.options = [1, 2, 3, 4] ∧
      Components.backendMcq.correct_answer = some 1 ∧
      (Components.step Components.started
          { action := Action.submitOption 1 1000, timestamp := "t",
            outcome := FetchOutcome.failed }).map
          (fun s => (s.level, s.qIndex, s.results.map (fun r => getProp r "correct")))
        = some (1, 1, [some (JsVal.bool true)]) ∧
      (Components.step Components.started
          { action := Action.submitOption 0 1000, timestamp := "t",
            outcome := FetchOutcome.failed }).map
          (fun s => (s.level, s.qIndex, s.results.map (fun r => getProp r "correct")))
        = some (1, 1, [some (JsVal.bool false)]) ∧
      (Pages.step (Pages.mount "session_0"
            (FetchOutcome.ok (List.replicate 4 Components.backendMcq)) id)
          { action := Action.submitOption 1 1000, sessionId := "session_1",
            outcome := FetchOutcome.failed, shuffle := id }).map
          (fun s => (s.level, s.qIndex, s.results.map (fun r => getProp r "correct")))
        = some (1, 1, [some (JsVal.bool true)]) ∧
      (Pages.step (Pages.mount "session_0"
            (FetchOutcome.ok (List.replicate 4 Components.backendMcq)) id)
          { action := Action.submitOption 0 1000, sessionId := "session_1",
            outcome := FetchOutcome.failed, shuffle := id }).map
          (fun s => (s.level, s.qIndex, s.results.map (fun r => getProp r "correct")))
        = some (1, 1, [some (JsVal.bool false)])) := by
  refine ⟨?_, ?_, by decide, by decide, by decide, by decide, by decide, by decide,
    by decide, by decide, by decide⟩
  · intro q i t s sessionId outcome shuffle timestamp hq hi
    obtain ⟨e1, e2⟩ := mcq_payload q i t hq hi
    refine ⟨_, _, decide (some i = q.correct_answer), e1, e2, by simp, ?_, ?_⟩
    · refine ⟨_, pages_results_appended s sessionId outcome shuffle _ _, ?_⟩
      rw [getProp_spread_of_ne _ _ _ (by simp)]
      simp [spread, setProp, getProp]
    · refine ⟨_, components_results_appended s outcome timestamp _ _, ?_⟩
      rw [getProp_setProp_of_ne _ _ _ _ (by decide),
        getProp_spread_of_ne _ _ _ (by simp)]
      simp [spread, setProp, getProp]
  · intro s sessionId outcome shuffle timestamp qData metrics qData1 metrics1
    constructor
    · unfold Pages.completeQuestion
      by_cases c1 : s.qIndex < QUESTIONS_PER_LEVEL - 1
      · simp [c1]
      · by_cases c2 : s.level < TOTAL_LEVELS
        · cases outcome <;> simp [c1, c2, Pages.fetchQuestions]
        · simp [c1, c2]
    · unfold Components.completeQuestion
      by_cases c1 : s.qIndex < QUESTIONS_PER_LEVEL - 1
      · simp [c1]
      · by_cases c2 : s.level < TOTAL_LEVELS
        · cases outcome <;> simp [c1, c2, Components.fetchQuestions]
        · simp [c1, c2, Components.completeGame]

/-- The general part applied to the backend's question and option 1. -/
theorem mcq_flag_and_progression_witness :
    ∃ qData metrics flag,
      Pages.QuestionRenderer Components.backendMcq (Action.submitOption 1 1000)
        = some (qData, metrics) ∧
      Components.QuestionRenderer Components.backendMcq (Action.submitOption 1 1000)
        = some (qData, metrics) ∧
      (flag = true ↔ some 1 = Components.backendMcq.correct_answer) ∧
      (∃ record, (Pages.completeQuestion "session_0" FetchOutcome.failed id qData metrics
            Components.started).1.results
          = Components.started.results ++ [record] ∧
        getProp record "correct" = some (JsVal.bool flag)) ∧
      (∃ record, (Components.completeQuestion FetchOutcome.failed "t" qData metrics
            Components.started).1.results
          = Components.started.results ++ [record] ∧
        getProp record "correct" = some (JsVal.bool flag)) :=
  mcq_flag_and_progression.1 Components.backendMcq 1 1000 Components.started "session_0"
    FetchOutcome.failed id "t" rfl (by decide)

/-! ## The fallback question set -/

/-- C19, on the code of `src/src/pages/Students/assesmentPage.jsx`: with the backend
unavailable, two calls for level 3 from the same session install the fallback questions
in different orders when the shuffle comes out differently. -/
theorem fallback_order_depends_on_shuffle :
    ((Pages.fetchQuestions FetchOutcome.failed id 3
        (Pages.initial "session_0")).questions.map (fun q => q.type))
      = ["mcq", "mcq", "mcq", "memory", "gesture"] ∧
    ((Pages.fetchQuestions FetchOutcome.failed List.reverse 3
        (Pages.initial "session_0")).questions.map (fun q => q.type))
      = ["gesture", "memory", "mcq", "mcq", "mcq"] ∧
    decide ((Pages.fetchQuestions FetchOutcome.failed id 3
        (Pages.initial "session_0")).questions
      = (Pages.fetchQuestions FetchOutcome.failed List.reverse 3
          (Pages.initial "session_0")).questions) = false := by
  decide

/-- C19, as the code has it. With the backend unavailable and for any two sessions:
`src/src/components/assesmentPage.jsx` installs `generateDemoQuestions level`, the same
list in the same order; `src/src/pages/Students/assesmentPage.jsx` installs the shuffled
`generateDemoQuestions level`, so two calls install the same questions up to their order,
and the same list when the shuffle reorders in the same way. -/
theorem fallback_questions_by_level (level : Nat) (s s1 : Session)
    (shuffle shuffle1 : List Question → List Question)
    (hp : ∀ l, (shuffle l).Perm l) (hp1 : ∀ l, (shuffle1 l).Perm l) :
    (Components.fetchQuestions FetchOutcome.failed level s).questions
      = Components.generateDemoQuestions level ∧
    (Components.fetchQuestions FetchOutcome.failed level s).questions
      = (Components.fetchQuestions FetchOutcome.failed level s1).questions ∧
    (Pages.fetchQuestions FetchOutcome.failed shuffle level s).questions
      = shuffle (Pages.generateDemoQuestions level) ∧
    ((Pages.fetchQuestions FetchOutcome.failed shuffle level s).questions).Perm
      (Pages.fetchQuestions FetchOutcome.failed shuffle1 level s1).questions ∧
    (Pages.fetchQuestions FetchOutcome.failed shuffle level s).questions
      = (Pages.fetchQuestions FetchOutcome.failed shuffle level s1).questions := by
  refine ⟨rfl, rfl, rfl, ?_, rfl⟩
  exact (hp _).trans (hp1 _).symm

/-- The theorem applied to level 3, two sessions with different ids, and the shuffles
that keep and that reverse the order. -/
theorem fallback_questions_by_level_witness :
    (Components.fetchQuestions FetchOutcome.failed 3 (Components.initial "a")).questions
      = Components.generateDemoQuestions 3 ∧
    (Components.fetchQuestions FetchOutcome.failed 3 (Components.initial "a")).questions
      = (Components.fetchQuestions FetchOutcome.failed 3 (Components.initial "b")).questions ∧
    (Pages.fetchQuestions FetchOutcome.failed id 3 (Pages.initial "a")).questions
      = id (Pages.generateDemoQuestions 3) ∧
    ((Pages.fetchQuestions FetchOutcome.failed id 3 (Pages.initial "a")).questions).Perm
      (Pages.fetchQuestions FetchOutcome.failed List.reverse 3 (Pages.initial "b")).questions ∧
    (Pages.fetchQuestions FetchOutcome.failed id 3 (Pages.initial "a")).questions
      = (Pages.fetchQuestions FetchOutcome.failed id 3 (Pages.initial "b")).questions :=
  fallback_questions_by_level 3 (Components.initial "a") (Components.initial "b") id
    List.reverse (fun _ => List.Perm.refl _) (fun l => List.reverse_perm l)

/-! ## Completing the assessment without backend -/

theorem components_offline_first_step (a : Components.Answer) :
    Components.step Components.offline a = none ∨
    ∃ s1, Components.step Components.offline a = some s1 ∧
      s1.state = SessionState.playing ∧ s1.qIndex = 1 ∧
      s1.questions = Components.generateDemoQuestions 1 := by
  cases h : Components.step Components.offline a with
  | none => exact Or.inl rfl
  | some s1 =>
    right
    refine ⟨s1, rfl, ?_⟩
    unfold Components.step at h
    split_ifs at h
    split at h
    · split at h
      · simp only [Option.some.injEq] at h
        rw [← h]
        refine ⟨?_, ?_, ?_⟩ <;> rfl
      · exact absurd h (by simp)
    · exact absurd h (by simp)

theorem components_match_question_stuck (s : Session) (a : Components.Answer)
    (h1 : s.qIndex = 1) (h2 : s.questions = Components.generateDemoQuestions 1) :
    Components.step s a = none := by
  unfold Components.step
  split_ifs
  · rw [h1, h2]
    rfl
  · rfl

/-- C20, on the code: in `src/src/components/assesmentPage.jsx`, when the first question
fetch fails, no sequence of answers reaches the completed state: every possible sequence
leaves the session playing, because the second fallback question is a match question,
whose processor offers no action. In `src/src/pages/Students/assesmentPage.jsx` the
session without backend is completed by forty answers. -/
theorem components_offline_never_completes :
    (∀ answers : List Components.Answer,
      Components.run Components.offline answers = none ∨
      ∃ s, Components.run Components.offline answers = some s ∧
        s.state = SessionState.playing) ∧
    (Components.offline.questions[1]?).map (fun q => q.type) = some "match" ∧
    (∀ action : Action,
      (Components.offline.questions[1]?).bind
        (fun q => Components.QuestionRenderer q action) = none) ∧
    (Pages.run (Pages.mount "session_0" FetchOutcome.failed id) Pages.offlineAnswers).map
        (fun s => (s.state, s.results.length))
      = some (SessionState.completed, 40) := by
  refine ⟨fun answers => ?_, by decide, fun action => rfl, by decide⟩
  · cases answers with
    | nil => exact Or.inr ⟨Components.offline, rfl, rfl⟩
    | cons a rest =>
      rcases components_offline_first_step a with h | ⟨s1, h, hp, hi, hqs⟩
      · left
        simp [Components.run, h]
      · cases rest with
        | nil => exact Or.inr ⟨s1, by simp [Components.run, h], hp⟩
        | cons b rest1 =>
          left
          simp [Components.run, h, components_match_question_stuck s1 b hi hqs]

/-! ## Answer keys of the fallback questions -/

/-- The answer key of the fallback multiple-choice question of
`src/src/components/assesmentPage.jsx` points at the value `level + 1`. -/
theorem components_key_value (level : Nat) :
    ((Components.generateDemoQuestions level)[0]?).map
        (fun q => (q.type, q.options, q.correct_answer, keyValue q))
      = some ("mcq", [(level : Int), (level : Int) + 1, (level : Int) + 2, (level : Int) + 3],
          some 1, some ((level : Int) + 1)) := by
  simp [Components.generateDemoQuestions, keyValue]

/-- C21, on the code of `src/src/components/assesmentPage.jsx`: at level 2 the question
asking for 2+2 has the options 2, 3, 4, 5 and the key 1, which points at 3; the value 4 is
the option at index 2, and a child selecting it is recorded with `correct` false. Among
the levels 1 to 10 the key points at `2 * level` at level 1 only. -/
theorem components_mcq_key_wrong :
    ((Components.generateDemoQuestions 2)[0]?).map
        (fun q => (q.type, q.question, q.options, q.correct_answer, keyValue q))
      = some ("mcq", "2+2?", [2, 3, 4, 5], some 1, some 3) ∧
    ((Components.generateDemoQuestions 2)[0]?).map (fun q => indicesCarrying q (2 * 2))
      = some [2] ∧
    ((Components.generateDemoQuestions 2)[0]?).bind
        (fun q => Components.QuestionRenderer q (Action.submitOption 2 1000))
      = some ([("selected", JsVal.num 2), ("correct", JsVal.bool false)],
              [("time_taken", JsVal.num 1000)]) ∧
    levels = [1, 2, 3, 4, 5, 6, 7, 8, 9, 10] ∧
    levels.filter
        (fun level =>
          ((Components.generateDemoQuestions level)[0]?).bind keyValue
            == some (2 * (level : Int)))
      = [1] := by
  refine ⟨by decide, by decide, by decide, by decide, by decide⟩

/-- The answer keys of the three fallback multiple-choice questions of
`src/src/pages/Students/assesmentPage.jsx` point at the true answers `2 * level + 1`, 5
and `level + 6`, at every level. -/
theorem pages_key_values (level : Nat) :
    ((Pages.generateDemoQuestions level)[0]?).bind keyValue = some (2 * (level : Int) + 1) ∧
    ((Pages.generateDemoQuestions level)[1]?).bind keyValue = some 5 ∧
    ((Pages.generateDemoQuestions level)[2]?).bind keyValue = some ((level : Int) + 6) := by
  refine ⟨?_, ?_, ?_⟩
  · simp [Pages.generateDemoQuestions, keyValue]
    ring
  · simp [Pages.generateDemoQuestions, keyValue]
  · simp [Pages.generateDemoQuestions, keyValue]

/-- C22, on the code of `src/src/pages/Students/assesmentPage.jsx`: the keys point at
the true answers at every level from 1 to 10, but a second option carries the true answer
in the first question at level 2 (options 2, 4, 5, 5) and in the second question at levels
3 (options 3, 5, 3, 5) and 5 (options 3, 5, 5, 7); a child selecting that option is
recorded with `correct` false. The third question has no such level. -/
theorem pages_mcq_distractors_collide :
    levels = [1, 2, 3, 4, 5, 6, 7, 8, 9, 10] ∧
    levels.filter
        (fun level =>
          ((Pages.generateDemoQuestions level)[0]?).bind keyValue
              == some (2 * (level : Int) + 1) &&
            ((Pages.generateDemoQuestions level)[1]?).bind keyValue == some 5 &&
            ((Pages.generateDemoQuestions level)[2]?).bind keyValue
              == some ((level : Int) + 6))
      = levels ∧
    levels.filter
        (fun level =>
          ((Pages.generateDemoQuestions level)[0]?).map
              (fun q => indicesCarrying q (2 * (level : Int) + 1))
            != some [2])
      = [2] ∧
    levels.filter
        (fun level =>
          ((Pages.generateDemoQuestions level)[1]?).map (fun q => indicesCarrying q 5)
            != some [1])
      = [3, 5] ∧
    levels.filter
        (fun level =>
          ((Pages.generateDemoQuestions level)[2]?).map
              (fun q => indicesCarrying q ((level : Int) + 6))
            != some [1])
      = [] ∧
    ((Pages.generateDemoQuestions 2)[0]?).map
        (fun q => (q.question, q.options, q.correct_answer, indicesCarrying q 5))
      = some ("2 + 3 = ?", [2, 4, 5, 5], some 2, [2, 3]) ∧
    ((Pages.generateDemoQuestions 3)[1]?).map
        (fun q => (q.options, q.correct_answer, indicesCarrying q 5))
      = some ([3, 5, 3, 5], some 1, [1, 3]) ∧
    ((Pages.generateDemoQuestions 5)[1]?).map
        (fun q => (q.options, q.correct_answer, indicesCarrying q 5))
      = some ([3, 5, 5, 7], some 1, [1, 2]) ∧
    ((Pages.generateDemoQuestions 2)[0]?).bind
        (fun q => Pages.QuestionRenderer q (Action.submitOption 3 1000))
      = some ([("selected", JsVal.num 3), ("correct", JsVal.bool false)],
              [("time_taken", JsVal.num 1000)]) := by
  refine ⟨by decide, by decide, by decide, by decide, by decide, by decide, by decide,
    by decide, by decide⟩

end Assessment
